import Mathlib

/-!
Shallow embedding, in Lean 4, of the security gateway of the
meta-analysis-chatbot repository: the input validators
(`utils/validators.py`), the R sanitizer (`utils/r_sanitizer.py`), the
secure subprocess wrapper (`utils/secure_subprocess.py`), the upload
sandbox (`utils/file_security.py`) and the stdio JSON-RPC dispatcher
(`server.py`).  Python strings are Lean `String`s (lists of characters),
machine-level side effects (directory creation, process spawning, file
moves) are recorded explicitly as effect lists, Python exceptions are
`Except` errors, and external oracles (the spawned interpreter's output,
`python-magic`, the `mimetypes` table, message digests, clocks) are
explicit function parameters.
-/

namespace Py

/-- The apostrophe character, `chr 39`. -/
def sqCh : Char := Char.ofNat 39

/-- The double-quote character, `chr 34`. -/
def dqCh : Char := Char.ofNat 34

/-- The backtick character, `chr 96`. -/
def btCh : Char := Char.ofNat 96

/-- The apostrophe as a one-character string. -/
def sq : String := String.singleton sqCh

/-- The double quote as a one-character string. -/
def dq : String := String.singleton dqCh

/-- The backtick as a one-character string. -/
def bt : String := String.singleton btCh

/-- Opening curly brace as a one-character string, `chr 123`. -/
def lbr : String := String.singleton (Char.ofNat 123)

/-- Closing curly brace as a one-character string, `chr 125`. -/
def rbr : String := String.singleton (Char.ofNat 125)

/-- The whitespace set of Python `str.strip()` (ASCII fragment):
space, tab, newline, carriage return, vertical tab, form feed. -/
def isPySpace (c : Char) : Bool :=
  c = ' ' || c = '\t' || c = '\n' || c = '\r' || c = Char.ofNat 11 || c = Char.ofNat 12

/-- ASCII letter or digit, the class `[a-zA-Z0-9]`. -/
def isAsciiAlnum (c : Char) : Bool :=
  (('a' ≤ c && c ≤ 'z') || ('A' ≤ c && c ≤ 'Z') || ('0' ≤ c && c ≤ '9'))

/-- ASCII letter, the class `[a-zA-Z]`. -/
def isAsciiAlpha (c : Char) : Bool :=
  (('a' ≤ c && c ≤ 'z') || ('A' ≤ c && c ≤ 'Z'))

/-- ASCII digit, the class `[0-9]`. -/
def isAsciiDigit (c : Char) : Bool := ('0' ≤ c && c ≤ '9')

/-- Regex word character, the class `[a-zA-Z0-9_]`. -/
def isWordChar (c : Char) : Bool := isAsciiAlnum c || c = '_'

/-- ASCII lowercasing of one character, as Python `str.lower` acts on ASCII. -/
def asciiLowerCh (c : Char) : Char :=
  if 'A' ≤ c ∧ c ≤ 'Z' then Char.ofNat (c.toNat + 32) else c

/-- `str.lower()` on character lists. -/
def lowerL (s : List Char) : List Char := s.map asciiLowerCh

/-- `str.lower()` restricted to ASCII input. -/
def pyLower (s : String) : String := ⟨lowerL s.data⟩

/-- Strip `isPySpace` characters from the front of a character list. -/
def trimLeftL (s : List Char) : List Char := s.dropWhile isPySpace

/-- Strip `isPySpace` characters from the back of a character list. -/
def trimRightL (s : List Char) : List Char := (s.reverse.dropWhile isPySpace).reverse

/-- Python `str.strip()` on character lists. -/
def stripL (s : List Char) : List Char := trimRightL (trimLeftL s)

/-- Python `str.strip()`. -/
def pyStrip (s : String) : String := ⟨stripL s.data⟩

/-- Helper for substring search: does `pat` occur in `s` as a prefix of some
suffix of `s`? -/
def isInfixAux (pat : List Char) : List Char → Bool
  | [] => pat.isEmpty
  | c :: rest => pat.isPrefixOf (c :: rest) || isInfixAux pat rest

/-- Python substring containment `pat in s` (the empty pattern is contained
in every string). -/
def containsSub (s pat : String) : Bool :=
  pat.data.isEmpty || isInfixAux pat.data s.data

/-- Python `s.startswith(p)`. -/
def pyStartsWith (s p : String) : Bool := p.data.isPrefixOf s.data

/-- Python `s.endswith(p)`. -/
def pyEndsWith (s p : String) : Bool := p.data.reverse.isPrefixOf s.data.reverse

/-- Python `str.replace` on character lists, for a one-character pattern
(every `.replace` reachable from the embedded code paths has a
one-character pattern): each occurrence of `a` is replaced by `repl`. -/
def replaceChL (a : Char) (repl : List Char) : List Char → List Char
  | [] => []
  | c :: rest =>
    if c = a then repl ++ replaceChL a repl rest
    else c :: replaceChL a repl rest

/-- Python `s.replace(pat, repl)` for a one-character pattern `pat`. -/
def pyReplaceCh (s : String) (a : Char) (repl : String) : String :=
  ⟨replaceChL a repl.data s.data⟩

/-- Python slicing truncation `s if len(s) <= n else s[:n]`. -/
def truncL (n : Nat) (s : List Char) : List Char :=
  if s.length > n then s.take n else s

/-- Character-level splitting on a separator character (same semantics as
Python `str.split(sep)` for a one-character separator). -/
def splitChL (sep : Char) : List Char → List (List Char)
  | [] => [[]]
  | c :: rest =>
    if c = sep then [] :: splitChL sep rest
    else
      match splitChL sep rest with
      | h :: t => (c :: h) :: t
      | [] => [[c]]

/-- Python `s.split(sep)` for a one-character separator. -/
def pySplitCh (s : String) (sep : Char) : List String :=
  (splitChL sep s.data).map (fun l => ⟨l⟩)

/-- Joining with a separator (`sep.join(xs)`). -/
def joinWith (sep : String) : List String → String
  | [] => ""
  | [x] => x
  | x :: y :: rest => x ++ sep ++ joinWith sep (y :: rest)

/-- Python `'\n'`-splitting, `s.split('\n')`. -/
def pySplitNl (s : String) : List String := pySplitCh s '\n'

/-- Python `os.path.basename` for POSIX paths: everything after the last
slash. -/
def pyBasename (s : String) : String :=
  match (pySplitCh s '/').getLast? with
  | some last => last
  | none => s

/-- Python `os.path.join(a, b)` for POSIX paths and string `b`. -/
def pyJoinStr (a b : String) : String :=
  if pyStartsWith b "/" then b
  else if a = "" || pyEndsWith a "/" then a ++ b
  else a ++ "/" ++ b

/-- One step of POSIX `normpath` component processing. -/
def normComps (isAbs : Bool) : List String → List String → List String
  | acc, [] => acc.reverse
  | acc, comp :: rest =>
    if comp = "" || comp = "." then normComps isAbs acc rest
    else if comp = ".." then
      match acc with
      | [] => if isAbs then normComps isAbs [] rest else normComps isAbs [".."] rest
      | top :: accRest =>
        if top = ".." then normComps isAbs (".." :: acc) rest
        else normComps isAbs accRest rest
    else normComps isAbs (comp :: acc) rest

/-- Python `posixpath.normpath` (collapses `.`, `..` and repeated slashes). -/
def pyNormpath (p : String) : String :=
  let isAbs := pyStartsWith p "/"
  let comps := normComps isAbs [] (pySplitCh p '/')
  let body := joinWith "/" comps
  if isAbs then (if body = "" then "/" else "/" ++ body)
  else (if body = "" then "." else body)

/-- Python `os.path.abspath` relative to a current working directory. -/
def pyAbspath (cwd p : String) : String :=
  pyNormpath (if pyStartsWith p "/" then p else pyJoinStr cwd p)

/-- `pathlib.PurePosixPath` component list, minus the root marker: `.` and
empty components are dropped, `..` is kept. -/
def pathComps (p : String) : List String :=
  (pySplitCh p '/').filter (fun c => c ≠ "" && c ≠ ".")

/-- `str(pathlib.PurePosixPath(p))`. -/
def pathStr (p : String) : String :=
  let comps := pathComps p
  if pyStartsWith p "/" then "/" ++ joinWith "/" comps
  else if comps = [] then "." else joinWith "/" comps

/-- `pathlib.PurePosixPath(p).suffix`: the final dot-extension of the last
component, empty when the dot is leading or trailing. -/
def pathSuffix (p : String) : String :=
  let name := pyBasename p
  match (pySplitCh name '.').reverse with
  | ext :: (_ :: _ : List String) =>
    if ext = "" || pyStartsWith name "." && (pySplitCh name '.').length = 2 then ""
    else "." ++ ext
  | _ => ""

/-- Strict descendance of POSIX paths: `p` lies strictly below `root`
(used to state the sessions-root containment property). -/
def isStrictDescendant (p root : String) : Bool :=
  pyStartsWith p (root ++ "/") && decide (p ≠ root ++ "/")

/-- `s.rsplit('.', 1)` as a pair (everything before the last dot, after). -/
def rsplitDot (s : String) : String × String :=
  match (pySplitCh s '.').reverse with
  | ext :: (front1 :: frontRest : List String) =>
    (joinWith "." (front1 :: frontRest).reverse, ext)
  | _ => (s, "")

/-- The safe character set of `shlex.quote`: ASCII alphanumerics together
with underscore, at sign, percent, plus, equals, colon, comma, dot, slash
and dash. -/
def shlexSafe (c : Char) : Bool :=
  isAsciiAlnum c || c = '_' || c = '@' || c = '%' || c = '+' || c = '=' ||
  c = ':' || c = ',' || c = '.' || c = '/' || c = '-'

/-- Python `shlex.quote`. -/
def shlexQuote (s : String) : String :=
  if s = "" then sq ++ sq
  else if s.data.all shlexSafe then s
  else sq ++ pyReplaceCh s sqCh (sq ++ dq ++ sq ++ dq ++ sq) ++ sq

end Py

/-- JSON-like Python values: the value space that flows from `json.loads`
through the dispatcher into the validators (floats do not occur on the
paths modelled here). -/
inductive JVal where
  | null : JVal
  | bool : Bool → JVal
  | int : Int → JVal
  | str : String → JVal
  | arr : List JVal → JVal
  | obj : List (String × JVal) → JVal
deriving Repr

namespace JVal

mutual

/-- Structural boolean equality on values (the derived instance would use
well-founded recursion, which the kernel cannot evaluate). -/
def beq : JVal → JVal → Bool
  | .null, .null => true
  | .bool a, .bool b => a == b
  | .int a, .int b => a == b
  | .str a, .str b => a == b
  | .arr a, .arr b => beqList a b
  | .obj a, .obj b => beqPairs a b
  | _, _ => false

/-- Elementwise equality of value lists. -/
def beqList : List JVal → List JVal → Bool
  | [], [] => true
  | a :: as_, b :: bs => beq a b && beqList as_ bs
  | _, _ => false

/-- Pairwise equality of key/value lists. -/
def beqPairs : List (String × JVal) → List (String × JVal) → Bool
  | [], [] => true
  | (ka, va) :: as_, (kb, vb) :: bs => ka == kb && beq va vb && beqPairs as_ bs
  | _, _ => false

end

instance : BEq JVal := ⟨beq⟩

/-- Python truthiness of the embedded values. -/
def truthy : JVal → Bool
  | .null => false
  | .bool b => b
  | .int n => n ≠ 0
  | .str s => s ≠ ""
  | .arr xs => ¬ xs.isEmpty
  | .obj kvs => ¬ kvs.isEmpty

mutual

/-- Python `repr()` of the embedded values (string escaping inside nested
containers is not reproduced; no modelled input relies on it). -/
def reprOf : JVal → String
  | .null => "None"
  | .bool b => if b then "True" else "False"
  | .int n => toString n
  | .str s => Py.sq ++ s ++ Py.sq
  | .arr xs => "[" ++ Py.joinWith ", " (reprList xs) ++ "]"
  | .obj kvs => Py.lbr ++ Py.joinWith ", " (reprPairs kvs) ++ Py.rbr

/-- `repr()` of each element of a list. -/
def reprList : List JVal → List String
  | [] => []
  | v :: vs => reprOf v :: reprList vs

/-- `repr()` of each key/value pair of a dict. -/
def reprPairs : List (String × JVal) → List String
  | [] => []
  | (k, v) :: kvs => (Py.sq ++ k ++ Py.sq ++ ": " ++ reprOf v) :: reprPairs kvs

end

/-- Python `str()` of the embedded values. -/
def strOf : JVal → String
  | .str s => s
  | v => reprOf v

/-- Dictionary lookup (`d[k]` / `d.get(k)` on a dict value). -/
def objGet (kvs : List (String × JVal)) (k : String) : Option JVal :=
  kvs.lookup k

/-- Dictionary update `d[k] = v` (in-place overwrite or append). -/
def objSet (kvs : List (String × JVal)) (k : String) (v : JVal) :
    List (String × JVal) :=
  if (kvs.lookup k).isSome then
    kvs.map (fun kv => if kv.1 = k then (k, v) else kv)
  else kvs ++ [(k, v)]

/-- Dictionary `d.setdefault(k, v)`. -/
def objSetdefault (kvs : List (String × JVal)) (k : String) (v : JVal) :
    List (String × JVal) :=
  if (kvs.lookup k).isSome then kvs else kvs ++ [(k, v)]

end JVal

namespace Validators

/-- `utils/validators.py` `ValidationError` (carries the message). -/
structure ValidationError where
  msg : String
deriving Repr, BEq, DecidableEq

/-- The named `InputValidator.PATTERNS` entries reachable from the call
sites modelled here (`validate_string` is only ever invoked with one of
these names in the embedded code paths; the custom-regex branch is not
exercised by the source on these paths). -/
inductive Pattern where
  | sessionId
  | alphanumeric
  | alpha
  | numeric
  | filename
deriving Repr, BEq, DecidableEq

/-- Body of the `session_id` regex `[a-zA-Z0-9-]` repeated 8 to 64 times. -/
def sessionIdCore (s : List Char) : Bool :=
  decide (8 ≤ s.length) && decide (s.length ≤ 64) &&
    s.all (fun c => Py.isAsciiAlnum c || c = '-')

/-- Body of the `alphanumeric` regex, one or more of `[a-zA-Z0-9]`. -/
def alphanumericCore (s : List Char) : Bool :=
  !s.isEmpty && s.all Py.isAsciiAlnum

/-- Body of the `alpha` regex, one or more ASCII letters. -/
def alphaCore (s : List Char) : Bool :=
  !s.isEmpty && s.all Py.isAsciiAlpha

/-- Body of the `numeric` regex, one or more ASCII digits. -/
def numericCore (s : List Char) : Bool :=
  !s.isEmpty && s.all Py.isAsciiDigit

/-- Body of the `filename` regex, one or more of letters, digits, dash,
underscore, dot. -/
def filenameCore (s : List Char) : Bool :=
  !s.isEmpty && s.all (fun c => Py.isAsciiAlnum c || c = '-' || c = '_' || c = '.')

/-- `re.match` against an `^...$`-anchored pattern: the whole string
matches, or everything before one trailing newline matches (Python `$`
also matches just before a final newline). -/
def reFullMatch (core : List Char → Bool) (s : String) : Bool :=
  core s.data || (s.data.getLast? = some '\n' && core s.data.dropLast)

/-- Matcher of a named pattern. -/
def patternMatch : Pattern → String → Bool
  | .sessionId, s => reFullMatch sessionIdCore s
  | .alphanumeric, s => reFullMatch alphanumericCore s
  | .alpha, s => reFullMatch alphaCore s
  | .numeric, s => reFullMatch numericCore s
  | .filename, s => reFullMatch filenameCore s

/-- Printed name of a pattern, used in error messages. -/
def patternName : Pattern → String
  | .sessionId => "session_id"
  | .alphanumeric => "alphanumeric"
  | .alpha => "alpha"
  | .numeric => "numeric"
  | .filename => "filename"

/-- `InputValidator.validate_string`.  Coerces any non-`None` value through
`str()`, strips it, then applies the length, pattern and allowed-character
constraints (`if max_length and ...` makes a zero max length a no-op, as
Python truthiness does). -/
def validate_string (value : JVal) (minLength : Nat) (maxLength : Option Nat)
    (pattern : Option Pattern) (allowedChars : Option (List Char)) :
    Except ValidationError String :=
  if value == .null then .error ⟨"Value cannot be None"⟩
  else
    let strValue := Py.pyStrip (value.strOf)
    if strValue.length < minLength then
      .error ⟨"String too short (min: " ++ toString minLength ++ ")"⟩
    else if (match maxLength with
             | some m => decide (m ≠ 0) && decide (strValue.length > m)
             | none => false) then
      .error ⟨"String too long (max: " ++ toString (maxLength.getD 0) ++ ")"⟩
    else if (match pattern with
             | some p => !patternMatch p strValue
             | none => false) then
      .error ⟨"String does not match required pattern: " ++
              (pattern.map patternName).getD ""⟩
    else if (match allowedChars with
             | some cs => !strValue.data.all (fun c => cs.contains c)
             | none => false) then
      .error ⟨"Character not allowed"⟩
    else .ok strValue

/-- `InputValidator.ALLOWED_VALUES`. -/
def ALLOWED_VALUES : List (String × List String) :=
  [("study_type", ["clinical_trial", "observational", "diagnostic"]),
   ("effect_measure", ["OR", "RR", "MD", "SMD", "HR", "PROP", "MEAN"]),
   ("analysis_model", ["fixed", "random", "auto"]),
   ("data_format", ["csv", "excel", "revman"]),
   ("validation_level", ["basic", "comprehensive"]),
   ("plot_style", ["classic", "modern", "journal_specific"]),
   ("report_format", ["html", "pdf", "word"]),
   ("file_extension", [".csv", ".xlsx", ".xls", ".rds", ".png", ".jpg", ".pdf"]),
   ("bias_methods", ["funnel_plot", "egger_test", "begg_test", "trim_fill"])]

/-- `InputValidator.validate_enum`: lowercases `str(value)` (empty string
for falsy values) and tests membership in the stored vocabulary list. -/
def validate_enum (value : JVal) (enumName : String) :
    Except ValidationError String :=
  match ALLOWED_VALUES.lookup enumName with
  | none => .error ⟨"Unknown enum type: " ++ enumName⟩
  | some allowed =>
    let strValue := if value.truthy then Py.pyLower (value.strOf) else ""
    if allowed.contains strValue then .ok strValue
    else .error ⟨"Value " ++ Py.sq ++ strValue ++ Py.sq ++ " not in allowed values"⟩

/-- `InputValidator.validate_session_id`. -/
def validate_session_id (sessionId : JVal) : Except ValidationError String :=
  validate_string sessionId 8 (some 64) (some .sessionId) none

/-- `InputValidator.validate_filename`. -/
def validate_filename (filename : JVal) (allowedExtensions : Option (List String)) :
    Except ValidationError String := do
  let filenameStr ← validate_string filename 1 (some 255) (some .filename) none
  if Py.containsSub filenameStr ".." || Py.containsSub filenameStr "/" ||
      Py.containsSub filenameStr "\\" then
    .error ⟨"Invalid filename: contains path separators"⟩
  else
    match allowedExtensions with
    | some exts =>
      let ext := Py.pyLower (Py.pathSuffix filenameStr)
      if !exts.contains ext then
        .error ⟨"File extension " ++ Py.sq ++ ext ++ Py.sq ++ " not allowed"⟩
      else .ok filenameStr
    | none => .ok filenameStr

/-- The formula-injection first characters of `validate_csv_content`. -/
def csvDangerousFirst : List Char := ['=', '@', '+', '-', '|']

/-- `InputValidator.validate_csv_content`: size-bounds the content, splits
the stripped content on newlines, bounds the row count, and rejects when
the first character of any non-empty row is a formula-injection
character (the source collects `line[0]` of each non-empty line into a
set and tests it against the dangerous list; the set is embedded as the
list of first characters, which has the same emptiness of intersection). -/
def validate_csv_content (content : JVal) (maxRows : Nat) :
    Except ValidationError String :=
  match validate_string content 0 (some 10485760) none none with
  | .error e => .error e
  | .ok strContent =>
    let lines := Py.pySplitNl (Py.pyStrip strContent)
    if lines.length > maxRows then
      .error ⟨"CSV has too many rows (max: " ++ toString maxRows ++ ")"⟩
    else
      let firstChars := lines.filterMap (fun l => l.data.head?)
      if firstChars.any (fun c => csvDangerousFirst.contains c) then
        .error ⟨"CSV contains potentially dangerous formula injection"⟩
      else .ok strContent

/-- The character denylist of `sanitize_for_r`. -/
def rDangerousChars : List Char :=
  [Py.btCh, '$', '@', '!', '#', '%', '^', '&', '*',
   '(', ')', '[', ']', Char.ofNat 123, Char.ofNat 125, '|', '\\', ';',
   ':', Py.dqCh, Py.sqCh, '<', '>', '?', '\n', '\r', '\t']

/-- Sequential single-character removals
`for char in dangerous_chars: s = s.replace(char, '')`. -/
def removeAllL (ds : List Char) (s : List Char) : List Char :=
  ds.foldl (fun acc c => Py.replaceChL c [] acc) s

/-- Character-list core of `sanitize_for_r`: remove the denylisted
characters, truncate to 1000 characters, strip. -/
def sanitizeForRL (s : List Char) : List Char :=
  Py.stripL (Py.truncL 1000 (removeAllL rDangerousChars s))

/-- `sanitize_for_r`: removes the denylisted characters, truncates to 1000
characters, strips. -/
def sanitize_for_r (value : String) : String := ⟨sanitizeForRL value.data⟩

end Validators

/-- A minimal filesystem oracle: which paths exist and which are regular
files (the truth of `os.path.exists` / `Path.is_file` at call time). -/
structure Fs where
  pathExists : String → Bool
  isFile : String → Bool

namespace RSan

/-- `utils/r_sanitizer.py` `RSanitizerError` (carries the message). -/
structure RSanitizerError where
  msg : String
deriving Repr, BEq, DecidableEq

/-- `RScriptSanitizer.DANGEROUS_R_FUNCTIONS`. -/
def DANGEROUS_R_FUNCTIONS : List String :=
  ["system", "system2", "shell", "eval", "parse", "source",
   "library", "require", "install.packages", "download.file",
   "file.remove", "unlink", "setwd", "Sys.setenv",
   "readLines", "writeLines", "save", "load", "saveRDS", "readRDS",
   "do.call", "get", "assign", "attach", "detach",
   "options", "par", "dev.off", "sink"]

/-- The keyword alternatives of the first `R_CODE_PATTERNS` regex. -/
def rCallKeywords : List String := ["system", "shell", "eval", "parse", "source"]

/-- After a keyword: `\s*` then a literal `(`. -/
def spacesThenParen (l : List Char) : Bool :=
  (l.dropWhile Py.isPySpace).head? = some '('

/-- Does one of the call keywords match (case-insensitively) at the head of
`l`, followed by optional whitespace and `(`? -/
def kwCallAt (l : List Char) : Bool :=
  rCallKeywords.any (fun kw =>
    Py.lowerL (l.take kw.length) = kw.data && spacesThenParen (l.drop kw.length))

/-- First `R_CODE_PATTERNS` regex (with `re.IGNORECASE`): a word boundary,
one of `system|shell|eval|parse|source`, optional whitespace, `(`.
`prev` is the character before the scan position, `none` at the start. -/
def hasDangerousCallAux (prev : Option Char) : List Char → Bool
  | [] => false
  | c :: rest =>
    ((match prev with | none => true | some p => !Py.isWordChar p) &&
      kwCallAt (c :: rest)) ||
    hasDangerousCallAux (some c) rest

/-- Entry point for the first pattern. -/
def hasDangerousCall (s : List Char) : Bool := hasDangerousCallAux none s

/-- Second pattern: a backtick, one or more non-backticks, a backtick. -/
def hasBacktickPair : List Char → Bool
  | [] => false
  | c :: rest =>
    (c = Py.btCh &&
      (let seg := rest.takeWhile (· ≠ Py.btCh)
       !seg.isEmpty && !(rest.drop seg.length).isEmpty)) ||
    hasBacktickPair rest

/-- Eighth pattern `(^|\s)!\s*[a-zA-Z]`: `!` at the start or after
whitespace, then optional whitespace and an ASCII letter. -/
def hasShellEscapeAux (prev : Option Char) : List Char → Bool
  | [] => false
  | c :: rest =>
    ((match prev with | none => true | some p => Py.isPySpace p) &&
      c = '!' &&
      (match (rest.dropWhile Py.isPySpace).head? with
       | some d => Py.isAsciiAlpha d
       | none => false)) ||
    hasShellEscapeAux (some c) rest

/-- Entry point for the eighth pattern. -/
def hasShellEscape (s : List Char) : Bool := hasShellEscapeAux none s

/-- `RScriptSanitizer.R_CODE_PATTERNS`, as one disjunction: dangerous call,
backtick execution, command substitution `$(`, global assignments `<<-` and
`->>`, ellipsis `...`, triple colon `:::`, shell escape. -/
def hasRCodePattern (s : String) : Bool :=
  hasDangerousCall s.data || hasBacktickPair s.data ||
  Py.containsSub s "$(" || Py.containsSub s "<<-" ||
  Py.containsSub s "->>" || Py.containsSub s "..." ||
  Py.containsSub s ":::" || hasShellEscape s.data

/-- `RScriptSanitizer.sanitize_string`: empty in, empty out; otherwise
`sanitize_for_r`, then the dangerous-function substring scan on the
lowercased value, then the code-pattern scan, then quote escaping (the
quotes were already removed by `sanitize_for_r`, so the two replacements
are inert on reachable values but are embedded faithfully). -/
def sanitize_string (value : String) : Except RSanitizerError String :=
  if value = "" then .ok ""
  else
    let sanitized := Validators.sanitize_for_r value
    let lowerValue := Py.pyLower sanitized
    match DANGEROUS_R_FUNCTIONS.find? (fun f => Py.containsSub lowerValue f) with
    | some f =>
      .error ⟨"Dangerous R function " ++ Py.sq ++ f ++ Py.sq ++ " detected in input"⟩
    | none =>
      if hasRCodePattern sanitized then
        .error ⟨"Potential R code injection pattern detected"⟩
      else
        .ok (Py.pyReplaceCh (Py.pyReplaceCh sanitized Py.dqCh ("\\" ++ Py.dq))
              Py.sqCh ("\\" ++ Py.sq))

/-- `RScriptSanitizer.sanitize_identifier`. -/
def sanitize_identifier (name : String) : String :=
  let sanitized := name.data.map (fun c =>
    if Py.isAsciiAlnum c || c = '.' || c = '_' then c else '_')
  let sanitized :=
    match sanitized with
    | c :: _ =>
      if Py.isAsciiAlpha c then sanitized
      else match sanitized with
        | '.' :: d :: _ => if Py.isAsciiAlpha d then sanitized else 'X' :: sanitized
        | _ => 'X' :: sanitized
    | [] => 'X' :: sanitized
  ⟨Py.truncL 100 sanitized⟩

/-- Static configuration of the sanitizer module: the repository root
(`Path(__file__).parent.parent`) and the working directory. -/
structure RsCfg where
  srcRoot : String
  cwd : String

/-- `RScriptSanitizer.validate_r_script_path`: existence, regular-file and
extension checks raise; the allow-listed-directory check at the end only
emits a `logger.warning` and never raises, so its outcome is computed and
discarded here exactly as the source discards it. -/
def validate_r_script_path (fs : Fs) (cfg : RsCfg) (scriptPath : String) :
    Except RSanitizerError String :=
  if !fs.pathExists scriptPath then
    .error ⟨"R script not found: " ++ scriptPath⟩
  else if !fs.isFile scriptPath then
    .error ⟨"Not a file: " ++ scriptPath⟩
  else if !([".r", ".R"].contains (Py.pyLower (Py.pathSuffix scriptPath))) then
    .error ⟨"Not an R script: " ++ scriptPath⟩
  else
    let absPath :=
      if Py.pyStartsWith scriptPath "/" then Py.pathStr scriptPath
      else Py.pathStr (cfg.cwd ++ "/" ++ scriptPath)
    let allowedDirs := [cfg.srcRoot ++ "/scripts", cfg.cwd ++ "/scripts"]
    let _warningOnly :=
      (allowedDirs.filter fs.pathExists).any
        (fun d => Py.pyStartsWith absPath d)
    .ok absPath

mutual

/-- `RScriptSanitizer._sanitize_json_data`: recursively sanitize every
string leaf. -/
def sanitizeJsonData : JVal → Except RSanitizerError JVal
  | .str s => do
    let s' ← sanitize_string s
    pure (.str s')
  | .obj kvs => do
    let kvs' ← sanitizeJsonPairs kvs
    pure (.obj kvs')
  | .arr xs => do
    let xs' ← sanitizeJsonList xs
    pure (.arr xs')
  | v => pure v

/-- Elementwise sanitization of a list value. -/
def sanitizeJsonList : List JVal → Except RSanitizerError (List JVal)
  | [] => pure []
  | v :: vs => do
    let v' ← sanitizeJsonData v
    let vs' ← sanitizeJsonList vs
    pure (v' :: vs')

/-- Valuewise sanitization of a dict value (keys are kept as in the source). -/
def sanitizeJsonPairs : List (String × JVal) →
    Except RSanitizerError (List (String × JVal))
  | [] => pure []
  | (k, v) :: kvs => do
    let v' ← sanitizeJsonData v
    let kvs' ← sanitizeJsonPairs kvs
    pure ((k, v') :: kvs')

end

/-- `RScriptSanitizer.create_temp_data_file` in its `json` branch: sanitize
the data and write it to a fresh temp file.  Temp-file naming
(`tempfile.mkstemp`) is modelled by an allocator `alloc` indexed by a
counter; the write itself is assumed to succeed.  Returns the new path and
the advanced counter. -/
def create_temp_data_file (alloc : Nat → String) (counter : Nat) (data : JVal) :
    Except RSanitizerError (String × Nat) := do
  let _ ← sanitizeJsonData data
  pure (alloc counter, counter + 1)

/-- One entry of `RScriptSanitizer.prepare_r_arguments`. -/
def prepareOneArg (fs : Fs) (cfg : RsCfg) (alloc : Nat → String) (counter : Nat)
    (k : String) (v : JVal) : Except RSanitizerError ((String × JVal) × Nat) :=
  let safeKey := sanitize_identifier k
  match v with
  | .str s =>
    if fs.pathExists s && fs.isFile s then
      pure ((safeKey, .str (Py.pyAbspath cfg.cwd s)), counter)
    else do
      let s' ← sanitize_string s
      pure ((safeKey, .str s'), counter)
  | .int n => pure ((safeKey, .int n), counter)
  | .bool b => pure ((safeKey, .bool b), counter)
  | .obj kvs => do
    let (path, c') ← create_temp_data_file alloc counter (.obj kvs)
    pure ((safeKey ++ "_file", .str path), c')
  | .arr xs => do
    let (path, c') ← create_temp_data_file alloc counter (.arr xs)
    pure ((safeKey ++ "_file", .str path), c')
  | .null => pure ((safeKey, .null), counter)

/-- `RScriptSanitizer.prepare_r_arguments`: entry-by-entry preparation in
insertion order. -/
def prepare_r_arguments (fs : Fs) (cfg : RsCfg) (alloc : Nat → String) :
    Nat → List (String × JVal) →
    Except RSanitizerError (List (String × JVal) × Nat)
  | counter, [] => pure ([], counter)
  | counter, (k, v) :: kvs => do
    let (kv', c') ← prepareOneArg fs cfg alloc counter k v
    let (rest, c'') ← prepare_r_arguments fs cfg alloc c' kvs
    pure (kv' :: rest, c'')

/-- `RScriptSanitizer.create_safe_r_command`: validate the script path,
prepare the arguments, spill them to a temp args file, and build the
`Rscript --vanilla` argv list. -/
def create_safe_r_command (fs : Fs) (cfg : RsCfg) (alloc : Nat → String)
    (counter : Nat) (scriptPath : String) (args : List (String × JVal)) :
    Except RSanitizerError (List String) := do
  let safeScript ← validate_r_script_path fs cfg scriptPath
  let (prepared, c') ← prepare_r_arguments fs cfg alloc counter args
  let (argsFile, _) ← create_temp_data_file alloc c' (.obj prepared)
  pure ["Rscript", "--vanilla", safeScript, argsFile]

end RSan

namespace SecSub

/-- Errors of the secure subprocess wrapper: `SecureSubprocessError`
(message), `subprocess.CalledProcessError` (return code), and an OS-level
spawn failure re-raised by the generic `except ... raise` arm. -/
inductive SubErr where
  | secure (msg : String)
  | calledProcess (rc : Int)
  | osError (msg : String)
deriving Repr, BEq, DecidableEq

/-- Is an error a `SecureSubprocessError` (as opposed to
`CalledProcessError` or an OS failure)? -/
def SubErr.isSecure : SubErr → Bool
  | .secure _ => true
  | _ => false

/-- `ALLOWED_COMMANDS`: executable basename to allowed leading-argument
prefixes. -/
def ALLOWED_COMMANDS : List (String × List String) :=
  [("python", ["-m", "--version", "--help"]),
   ("python3", ["-m", "--version", "--help"]),
   ("Rscript", ["--vanilla", "--version", "--help"]),
   ("node", ["--version", "--help"]),
   ("npm", ["--version", "install", "run"]),
   ("npx", [])]

/-- `DANGEROUS_PATTERNS` of `utils/secure_subprocess.py`.  The Python
source spells the newline entries with escaped backslashes (`'\\n'` etc.),
so they denote the two-character sequences backslash-n, backslash-r,
backslash-t, not actual control characters; `'..'` appears only in the
forms `'../'` and `'..\\'`. -/
def DANGEROUS_PATTERNS : List String :=
  [";", "&&", "||", "|", ">", "<", ">>", "<<",
   Py.bt, "$", "$(", "$\x7b",
   "\\n", "\\r", "\\t",
   "../", "..\\",
   "rm ", "del ", "format",
   "eval", "exec", "system"]

/-- Configuration of a `SecureSubprocess` instance. -/
structure SubCfg where
  timeout : Nat
  maxOutputSize : Nat
  allowedCommands : List (String × List String)

/-- The default instance (`timeout=300`, `max_output_size=50MB`,
`ALLOWED_COMMANDS`). -/
def defaultSubCfg : SubCfg := ⟨300, 50 * 1024 * 1024, ALLOWED_COMMANDS⟩

/-- The first dangerous pattern hit, scanning arguments left-to-right and
patterns in declaration order, exactly as the nested `for` loops do. -/
def firstDangerous (cmd : List String) : Option String :=
  cmd.findSome? (fun arg => DANGEROUS_PATTERNS.find? (fun p => Py.containsSub arg p))

/-- `SecureSubprocess.validate_command`: empty-command check, basename
whitelist check, dangerous-pattern scan over every argument.  The final
leading-argument-prefix inspection only issues a `logger.warning`, so its
outcome is computed and discarded. -/
def validate_command (cfg : SubCfg) (fs : Fs) (cmd : List String) :
    Except SubErr Unit :=
  match cmd with
  | [] => .error (.secure "Empty command")
  | c0 :: rest =>
    let baseCmd := Py.pyBasename c0
    match cfg.allowedCommands.lookup baseCmd with
    | none =>
      .error (.secure ("Command " ++ Py.sq ++ baseCmd ++ Py.sq ++ " not in whitelist"))
    | some allowedPrefixes =>
      match firstDangerous (c0 :: rest) with
      | some p =>
        .error (.secure ("Dangerous pattern " ++ Py.sq ++ p ++ Py.sq ++
                         " detected in arguments"))
      | none =>
        let _warningOnly :=
          match rest with
          | [] => true
          | firstArg :: _ =>
            allowedPrefixes.isEmpty ||
            allowedPrefixes.any (fun pre => Py.pyStartsWith firstArg pre) ||
            fs.pathExists firstArg || Py.pyEndsWith firstArg ".R" ||
            Py.pyEndsWith firstArg ".py"
        .ok ()

/-- `SecureSubprocess.sanitize_arguments`.  Note that the directory
traversal `raise` inside the `try` block is caught by its own
`except Exception: pass`, so the function never raises: on a traversal hit
the original `shlex.quote` of the stripped argument is kept (the
re-quoting of the normalized path is skipped), exactly as the source
behaves. -/
def sanitize_arguments (args : List String) : List String :=
  args.map (fun arg =>
    let argStr := Py.pyStrip arg
    let quoted := Py.shlexQuote argStr
    if Py.containsSub argStr "/" || Py.containsSub argStr "\\" then
      if (Py.pathComps argStr).contains ".." then quoted
      else Py.shlexQuote (Py.pathStr argStr)
    else quoted)

/-- Result of `subprocess.run`. -/
structure CompletedProcess where
  returncode : Int
  stdout : String
  stderr : String
deriving Repr, BEq, DecidableEq

/-- Outcome of one OS-level spawn, supplied by an oracle. -/
inductive SpawnOutcome where
  | completed (rc : Int) (stdoutS stderrS : String)
  | timedOut
  | raised (msg : String)
deriving Repr, BEq

/-- `SecureSubprocess.run` on an argv list: validation, argument
sanitization, then the OS spawn (recorded in the returned effect list),
timeout conversion, output-size ceiling and `check` handling.  The second
component lists the argv of every spawn that was actually invoked. -/
def run (cfg : SubCfg) (fs : Fs) (spawnOracle : List String → SpawnOutcome)
    (cmd : List String) (captureOutput : Bool) (check : Bool) :
    Except SubErr CompletedProcess × List (List String) :=
  match validate_command cfg fs cmd with
  | .error e => (.error e, [])
  | .ok () =>
    let cmd' := match cmd with
      | [] => []
      | c0 :: rest => if rest.isEmpty then cmd else c0 :: sanitize_arguments rest
    match spawnOracle cmd' with
    | .raised msg => (.error (.osError msg), [cmd'])
    | .timedOut =>
      (.error (.secure ("Command execution timed out after " ++
                        toString cfg.timeout ++ " seconds")), [cmd'])
    | .completed rc out err =>
      if captureOutput && decide (out.length + err.length > cfg.maxOutputSize) then
        (.error (.secure ("Output size (" ++ toString (out.length + err.length) ++
                          ") exceeds maximum (" ++ toString cfg.maxOutputSize ++ ")")),
         [cmd'])
      else if check && rc != 0 then
        (.error (.calledProcess rc), [cmd'])
      else
        (.ok ⟨rc, out, err⟩, [cmd'])

/-- `SecureSubprocess.popen` on an argv list: same validation and
sanitization, then the spawn; the handle is modelled by the spawned argv
(tracking table and monitor thread carry no data relevant here). -/
def popen (cfg : SubCfg) (fs : Fs) (cmd : List String) :
    Except SubErr (List String) × List (List String) :=
  match validate_command cfg fs cmd with
  | .error e => (.error e, [])
  | .ok () =>
    let cmd' := match cmd with
      | [] => []
      | c0 :: rest => if rest.isEmpty then cmd else c0 :: sanitize_arguments rest
    (.ok cmd', [cmd'])

end SecSub

namespace FileSec

/-- `utils/file_security.py` `FileSecurityError` (carries the message). -/
structure FileSecurityError where
  msg : String
deriving Repr, BEq, DecidableEq

/-- `SecureFileHandler.ALLOWED_EXTENSIONS`. -/
def ALLOWED_EXTENSIONS : List (String × List String) :=
  [(".csv", ["text/csv", "text/plain", "application/csv"]),
   (".xlsx", ["application/vnd.openxmlformats-officedocument.spreadsheetml.sheet"]),
   (".xls", ["application/vnd.ms-excel"]),
   (".txt", ["text/plain"]),
   (".json", ["application/json", "text/json"]),
   (".rds", ["application/octet-stream"]),
   (".pdf", ["application/pdf"]),
   (".png", ["image/png"]),
   (".jpg", ["image/jpeg"]),
   (".jpeg", ["image/jpeg"])]

/-- `SecureFileHandler.DANGEROUS_PATTERNS`, file bytes modelled as
characters (`MZ` is the pair `0x4d 0x5a`). -/
def DANGEROUS_BYTE_PATTERNS : List String :=
  ["<script", "<?php", "#!/bin/", "MZ", "\x7fELF", "%!PS"]

/-- An uploaded file: its bytes, modelled as characters. -/
structure UpFile where
  content : String
deriving Repr, BEq

/-- Configuration and environment oracles of a `SecureFileHandler`
instance: directories, size ceiling, extension table, `python-magic`
(`none` when unavailable), the `mimetypes` stdlib table, the
md5/sha1/sha256 digest rendering (uninterpreted), and clock/pid strings. -/
structure FileCfg where
  uploadDir : String
  quarantineDir : String
  sandboxDir : String
  maxFileSize : Nat
  allowedExtensions : List (String × List String)
  magicSniff : Option (String → String)
  mimeGuess : String → Option String
  hashesOf : String → String
  nowStamp : String
  nowIso : String
  collisionStamp : String
  pidStr : String

/-- `SecureFileHandler.validate_filename`: emptiness check, path-component
stripping, traversal rejection, `InputValidator.validate_filename` with
the extension whitelist, space replacement, character filtering, and the
final extension-dot requirement. -/
def validate_filename (cfg : FileCfg) (filename : String) :
    Except FileSecurityError String :=
  if filename = "" then .error ⟨"Empty filename"⟩
  else
    let fn := Py.pyBasename filename
    if Py.containsSub fn ".." || Py.containsSub fn "/" || Py.containsSub fn "\\" then
      .error ⟨"Invalid filename: contains path separators"⟩
    else
      match Validators.validate_filename (.str fn)
          (some (cfg.allowedExtensions.map (·.1))) with
      | .error e => .error ⟨"Invalid filename: " ++ e.msg⟩
      | .ok safe0 =>
        let safe1 := Py.pyReplaceCh safe0 ' ' "_"
        let safe2 : String := ⟨safe1.data.filter (fun c =>
          Py.isAsciiAlnum c || c = '.' || c = '_' || c = '-')⟩
        if !Py.containsSub safe2 "." then
          .error ⟨"Filename must have an extension"⟩
        else .ok safe2

/-- `SecureFileHandler.check_file_size`. -/
def check_file_size (cfg : FileCfg) (size : Nat) : Except FileSecurityError Nat :=
  if size > cfg.maxFileSize then
    .error ⟨"File too large: " ++ toString size ++ " bytes (max: " ++
            toString cfg.maxFileSize ++ ")"⟩
  else if size = 0 then .error ⟨"Empty file not allowed"⟩
  else .ok size

/-- `SecureFileHandler.detect_content_type`: `python-magic` when present,
then the `mimetypes` guess, then the hard-coded header checks on the
first 512 bytes. -/
def detect_content_type (cfg : FileCfg) (path : String) (content : String) :
    String :=
  match cfg.magicSniff with
  | some sniff => sniff content
  | none =>
    match cfg.mimeGuess path with
    | some t => t
    | none =>
      let header : String := ⟨content.data.take 512⟩
      if Py.pyStartsWith header "%PDF" then "application/pdf"
      else if Py.pyStartsWith header "\x89PNG" then "image/png"
      else if Py.pyStartsWith header "\xff\xd8\xff" then "image/jpeg"
      else if Py.pyStartsWith header "PK\x03\x04" then
        if Py.pathSuffix path = ".xlsx" then
          "application/vnd.openxmlformats-officedocument.spreadsheetml.sheet"
        else "application/zip"
      else "application/octet-stream"

/-- The textual extensions for which a content-type mismatch is tolerated
(only logged). -/
def mismatchExceptionExts : List String := [".txt", ".csv", ".rds"]

/-- `SecureFileHandler.validate_content_type`: unknown extension raises; a
detected type outside the extension's allowed MIME list raises unless the
extension is in the textual exception list. -/
def validate_content_type (cfg : FileCfg) (path : String) (content : String)
    (expectedExt : String) : Except FileSecurityError Unit :=
  match cfg.allowedExtensions.lookup expectedExt with
  | none => .error ⟨"Extension not allowed: " ++ expectedExt⟩
  | some allowedTypes =>
    let detected := detect_content_type cfg path content
    if allowedTypes.contains detected then .ok ()
    else if !mismatchExceptionExts.contains expectedExt then
      .error ⟨"File content (" ++ detected ++ ") doesn" ++ Py.sq ++
              "t match extension " ++ expectedExt⟩
    else .ok ()

/-- One line of the CSV formula-injection scan:
`re.match(r'^[\s]*X', line.strip())` for `X` among the five dangerous
characters collapses to: the stripped line starts with `X`. -/
def csvInjLine (line : String) : Bool :=
  match (Py.pyStrip line).data.head? with
  | some c => Validators.csvDangerousFirst.contains c
  | none => false

/-- `SecureFileHandler.scan_for_malware_patterns` over the first 1MB of
the file: binary dangerous patterns, then (for textual extensions) the
per-line CSV-injection scan of the first 1000 lines and the script-tag
scan (the pattern byte-repr in the binary issue message is spelled as the
plain pattern here). -/
def scan_for_malware_patterns (cfg : FileCfg) (path : String) (content : String) :
    List String :=
  let contentHead : String := ⟨content.data.take (1024 * 1024)⟩
  let binIssues := DANGEROUS_BYTE_PATTERNS.filterMap (fun p =>
    if Py.containsSub contentHead p then some ("Dangerous pattern detected: " ++ p)
    else none)
  let textIssues :=
    if [".csv", ".txt", ".json"].contains (Py.pathSuffix path) then
      let lines := (Py.pySplitNl contentHead).take 1000
      let csvIssues :=
        if Py.pathSuffix path = ".csv" then
          lines.enum.filterMap (fun iv =>
            if csvInjLine iv.2 then
              some ("CSV injection pattern on line " ++ toString (iv.1 + 1))
            else none)
        else []
      let scriptIssues :=
        if Py.containsSub (Py.pyLower contentHead) "<script" then
          ["Script tag detected in text file"]
        else []
      csvIssues ++ scriptIssues
    else []
  binIssues ++ textIssues

/-- The `UploadedFileRecord` built by the pipeline. -/
structure Metadata where
  originalName : String
  size : Nat
  contentType : String
  hashes : String
  uploadTime : String
  status : Option String
  issues : Option (List String)
  quarantinePath : Option String
  storagePath : Option String
  filename : Option String
deriving Repr, BEq

/-- `SecureFileHandler.sandbox_process_file`: the sandbox copy path and
the initial metadata record (size re-check included; it cannot differ
from step 2 because the copy has the same bytes). -/
def sandbox_process_file (cfg : FileCfg) (file : UpFile) (filename : String) :
    Except FileSecurityError (String × Metadata) :=
  let sandboxSubdir := cfg.sandboxDir ++ "/" ++ cfg.nowStamp ++ "_" ++ cfg.pidStr
  let sandboxFile := sandboxSubdir ++ "/" ++ filename
  match check_file_size cfg file.content.length with
  | .error e => .error e
  | .ok sz =>
    .ok (sandboxFile,
      { originalName := filename
        size := sz
        contentType := detect_content_type cfg sandboxFile file.content
        hashes := cfg.hashesOf file.content
        uploadTime := cfg.nowIso
        status := none, issues := none, quarantinePath := none
        storagePath := none, filename := none })

/-- Where the inspected copy of the uploaded file ends up. -/
inductive Disposition where
  | notCopied
  | leftInSandbox
  | sandboxDeleted
  | quarantinedAt (path : String)
  | storedAt (path : String)
deriving Repr, BEq, DecidableEq

/-- `SecureFileHandler.validate_and_store_file`: the full pipeline.
`fsDest` answers `final_path.exists()` for the collision check.  The
second component reports where the sandbox copy of the file ended up: the
`finally` block removes the sandbox subdirectory, so a failure inside the
`try` (steps 4-6) that did not move the file first leaves it deleted;
quarantine and final storage move it out beforehand.  On a step-5 hit the
locally mutated metadata dict is discarded by the `raise`, so the caller
receives only the `FileSecurityError`. -/
def validate_and_store_file (cfg : FileCfg) (fsDest : String → Bool)
    (file : UpFile) (originalFilename : String) (sessionId : Option String) :
    Except FileSecurityError Metadata × Disposition :=
  match validate_filename cfg originalFilename with
  | .error e => (.error e, .notCopied)
  | .ok safeFilename =>
    match check_file_size cfg file.content.length with
    | .error e => (.error e, .notCopied)
    | .ok _ =>
      match sandbox_process_file cfg file safeFilename with
      | .error e => (.error e, .leftInSandbox)
      | .ok (sandboxFile, metadata0) =>
        let ext := Py.pyLower (Py.pathSuffix safeFilename)
        match validate_content_type cfg sandboxFile file.content ext with
        | .error e => (.error e, .sandboxDeleted)
        | .ok () =>
          let issues := scan_for_malware_patterns cfg sandboxFile file.content
          if issues.isEmpty then
            let destDir := match sessionId with
              | some sid => cfg.uploadDir ++ "/" ++ sid
              | none => cfg.uploadDir
            let finalPath0 := destDir ++ "/" ++ safeFilename
            let (finalName, finalPath) :=
              if fsDest finalPath0 then
                let (stem, extPart) := Py.rsplitDot safeFilename
                let newName := stem ++ "_" ++ cfg.collisionStamp ++ "." ++ extPart
                (newName, destDir ++ "/" ++ newName)
              else (safeFilename, finalPath0)
            (.ok { metadata0 with
                    status := some "validated"
                    storagePath := some finalPath
                    filename := some finalName },
             .storedAt finalPath)
          else
            let quarantinePath := cfg.quarantineDir ++ "/SUSPICIOUS_" ++ safeFilename
            (.error ⟨"File failed security scan: " ++ Py.joinWith ", " issues⟩,
             .quarantinedAt quarantinePath)

end FileSec

namespace Server

/-- Uncaught Python exceptions of the dispatcher paths: `TypeError` (from
`os.path.join` on a non-string), `AttributeError` (from `.get` on a
non-dict) and OS-level spawn failures re-raised out of `subprocess.Popen`. -/
inductive PyExc where
  | typeError (msg : String)
  | attributeError (msg : String)
  | osError (msg : String)
deriving Repr, BEq, DecidableEq

/-- `str(e)` of an uncaught exception. -/
def PyExc.msg : PyExc → String
  | .typeError m => m
  | .attributeError m => m
  | .osError m => m

/-- Observable side effects of handling one request: directories created
by `os.makedirs` and argv lists handed to `subprocess.Popen`, in order. -/
structure Eff where
  mkdirs : List String
  spawns : List (List String)
deriving Repr, BEq, DecidableEq

/-- No side effects. -/
def Eff.none : Eff := ⟨[], []⟩

/-- Sequencing of effects. -/
def Eff.app (a b : Eff) : Eff := ⟨a.mkdirs ++ b.mkdirs, a.spawns ++ b.spawns⟩

/-- `server.py` `ALLOWED_TOOLS` (and `TOOLS`, which is the same set as a
list; only membership is ever consulted). -/
def ALLOWED_TOOLS : List String :=
  ["health_check", "initialize_meta_analysis", "upload_study_data",
   "perform_meta_analysis", "generate_forest_plot", "assess_publication_bias",
   "generate_report", "get_session_status", "execute_r_code"]

/-- Static configuration of one server process: the `SESSIONS_DIR`
environment variable, the working directory, the interpreter binary and
entry script, the `DEBUG_R` flag, plus the `uuid4().hex` and `time.time()`
values drawn during the handled request. -/
structure SrvCfg where
  sessionsDirEnv : Option String
  cwd : String
  rscriptBin : String
  scriptsEntry : String
  debugR : Bool
  uuidHex : String
  now : String

/-- Outcome of spawning the R interpreter, supplied by an oracle:
`raised` models `Popen` itself raising, `exited` carries the return code,
raw stdout/stderr and the result of `json.loads(stdout.strip())` (`none`
when stdout is not valid JSON). -/
inductive RSpawn where
  | raised (msg : String)
  | timedOut
  | exited (rc : Int) (stdoutRaw stderrRaw : String) (stdoutParsed : Option JVal)

/-- The `{status: error, message}` payload dict. -/
def errDict (msg : String) : JVal :=
  .obj [("status", .str "error"), ("message", .str msg)]

mutual

/-- `json.dumps` with the default separators. -/
def jsonDumps : JVal → String
  | .null => "null"
  | .bool b => if b then "true" else "false"
  | .int n => toString n
  | .str s => Py.dq ++ jsonEscape s.data ++ Py.dq
  | .arr xs => "[" ++ Py.joinWith ", " (dumpsList xs) ++ "]"
  | .obj kvs => Py.lbr ++ Py.joinWith ", " (dumpsPairs kvs) ++ Py.rbr

/-- JSON string escaping (backslash, quote and the common control
characters; `\\u` escapes for other control characters are not needed on
the modelled inputs). -/
def jsonEscape : List Char → String
  | [] => ""
  | c :: rest =>
    (if c = '\\' then "\\\\"
     else if c = Py.dqCh then "\\" ++ Py.dq
     else if c = '\n' then "\\n"
     else if c = '\r' then "\\r"
     else if c = '\t' then "\\t"
     else String.singleton c) ++ jsonEscape rest

/-- `json.dumps` of each element of a list. -/
def dumpsList : List JVal → List String
  | [] => []
  | v :: vs => jsonDumps v :: dumpsList vs

/-- `json.dumps` of each key/value pair of an object. -/
def dumpsPairs : List (String × JVal) → List String
  | [] => []
  | (k, v) :: kvs =>
    (Py.dq ++ jsonEscape k.data ++ Py.dq ++ ": " ++ jsonDumps v) :: dumpsPairs kvs

end

/-- `execute_r`: tool whitelist check, alphanumeric tool-name validation,
session-path containment check, argument-dict and session-id validation —
each failure returning a `{status: error}` dict — then the args temp file,
the `Popen` spawn and the decoding of the interpreter's output.  Every
`ValidationError` is converted inside; only a `Popen`-level OS failure
escapes as an exception. -/
def execute_r (cfg : SrvCfg) (spawn : List String → RSpawn) (tool : String)
    (args : JVal) (sessionPath : Option String) : Except PyExc JVal × Eff :=
  if !ALLOWED_TOOLS.contains tool then
    (.ok (errDict ("Invalid tool name: " ++ tool)), Eff.none)
  else
    match Validators.validate_string (.str tool) 1 (some 50)
        (some .alphanumeric) none with
    | .error e => (.ok (errDict ("Validation error: " ++ e.msg)), Eff.none)
    | .ok tool' =>
      let spAbs := sessionPath.map (Py.pyAbspath cfg.cwd)
      let allowedRoot := Py.pyAbspath cfg.cwd (cfg.sessionsDirEnv.getD cfg.cwd)
      if (match spAbs with
          | some p => !Py.pyStartsWith p allowedRoot
          | none => false) then
        (.ok (errDict "Invalid session path"), Eff.none)
      else
        match args with
        | .obj kvs =>
          let sidPresent := (kvs.lookup "session_id").isSome
          let sidValidated :=
            if sidPresent then
              (Validators.validate_session_id ((kvs.lookup "session_id").getD .null)).map
                (fun s => JVal.objSet kvs "session_id" (.str s))
            else .ok kvs
          match sidValidated with
          | .error e => (.ok (errDict ("Invalid session_id: " ++ e.msg)), Eff.none)
          | .ok kvs' =>
            let sessionDir := match spAbs with
              | some p => if p = "" then cfg.cwd else p
              | none => cfg.cwd
            let tmpDir := Py.pyJoinStr sessionDir "tmp"
            let argsFile := Py.pyJoinStr tmpDir ("args_" ++ tool' ++ ".json")
            let argv := [cfg.rscriptBin, "--vanilla", cfg.scriptsEntry,
                         Py.shlexQuote tool', Py.shlexQuote argsFile,
                         Py.shlexQuote sessionDir]
            let _argsJson := jsonDumps (.obj kvs')
            let eff : Eff := ⟨[tmpDir], [argv]⟩
            match spawn argv with
            | .raised m => (.error (.osError m), eff)
            | .timedOut => (.ok (errDict "R script execution timed out"), eff)
            | .exited rc outRaw errRaw parsed =>
              if rc != 0 then
                let base := [("status", JVal.str "error"),
                             ("message", JVal.str "R script failed to execute.")]
                let resp := if cfg.debugR then
                    base ++ [("stderr", JVal.str (Py.pyStrip errRaw)),
                             ("stdout", JVal.str (Py.pyStrip outRaw))]
                  else base
                (.ok (.obj resp), eff)
              else
                match parsed with
                | some v => (.ok v, eff)
                | none =>
                  let base := [("status", JVal.str "error"),
                               ("message", JVal.str "Invalid JSON from R"),
                               ("raw_output", JVal.str (Py.pyStrip outRaw))]
                  let resp := if cfg.debugR then
                      base ++ [("stderr", JVal.str (Py.pyStrip errRaw))]
                    else base
                  (.ok (.obj resp), eff)
        | _ => (.ok (errDict "Arguments must be a dictionary"), Eff.none)

/-- The membership test `name not in TOOLS` (Python `in` on a list of
strings never raises: any non-string value is simply not a member). -/
def toolNameOk (name : JVal) : Bool :=
  match name with
  | .str s => ALLOWED_TOOLS.contains s
  | _ => false

/-- The JSON-RPC error response shape. -/
def rpcError (requestId : JVal) (code : Int) (message : String) : JVal :=
  .obj [("jsonrpc", .str "2.0"), ("id", requestId),
        ("error", .obj [("code", .int code), ("message", .str message)])]

/-- `list_tools_resp`. -/
def list_tools_resp (requestId : JVal) : JVal :=
  .obj [("jsonrpc", .str "2.0"), ("id", requestId),
        ("result", .obj [("tools", .arr (ALLOWED_TOOLS.map (fun n =>
          .obj [("name", .str n), ("description", .str n)])))])]

/-- The success envelope `{result: {content: [{type: text, text: ...}]}}`. -/
def contentEnvelope (requestId : JVal) (result : JVal) : JVal :=
  .obj [("jsonrpc", .str "2.0"), ("id", requestId),
        ("result", .obj [("content", .arr [.obj [("type", .str "text"),
          ("text", .str (jsonDumps result))]])])]

/-- `call_tool_resp`: the tool whitelist gate (error `-32601`), session
directory resolution and creation (before any validation), then the
`try`-wrapped `execute_r` call whose exceptions are converted to a
`{status: error}` payload.  `arguments.get` on a non-dict raises
`AttributeError` and `os.path.join` on a non-string session id raises
`TypeError`; both sit outside the `try` and escape, exactly as in the
source. -/
def call_tool_resp (cfg : SrvCfg) (spawn : List String → RSpawn)
    (requestId : JVal) (name : JVal) (arguments : JVal) :
    Except PyExc JVal × Eff :=
  if !toolNameOk name then
    (.ok (rpcError requestId (-32601) ("Unknown tool: " ++ name.strOf)), Eff.none)
  else
    match name, arguments with
    | .str toolName, .obj kvs =>
      let sessionIdV := (kvs.lookup "session_id").getD .null
      let sessionsRoot :=
        cfg.sessionsDirEnv.getD (Py.pyJoinStr cfg.cwd "sessions")
      let mkRoot : Eff := ⟨[sessionsRoot], []⟩
      let resolved :
          Except PyExc (Option String × JVal × List (String × JVal) × Eff) :=
        if toolName = "initialize_meta_analysis" && !sessionIdV.truthy then
          let sid := cfg.uuidHex
          let spath := Py.pyJoinStr sessionsRoot sid
          .ok (some spath, .str sid, JVal.objSet kvs "session_id" (.str sid),
               Eff.app mkRoot ⟨[spath], []⟩)
        else if sessionIdV.truthy then
          match sessionIdV with
          | .str s =>
            let spath := Py.pyJoinStr sessionsRoot s
            .ok (some spath, sessionIdV, kvs, Eff.app mkRoot ⟨[spath], []⟩)
          | _ =>
            .error (.typeError
              "join() argument must be str, bytes, or os.PathLike object")
        else .ok (none, sessionIdV, kvs, mkRoot)
      match resolved with
      | .error e => (.error e, mkRoot)
      | .ok (sessionPath, sessionIdJ, kvs', eff1) =>
        let (res, eff2) := execute_r cfg spawn toolName (.obj kvs') sessionPath
        match res with
        | .ok result =>
          let result' :=
            if toolName = "initialize_meta_analysis" then
              match result with
              | .obj rkvs =>
                JVal.obj (JVal.objSetdefault
                  (JVal.objSetdefault rkvs "session_id" sessionIdJ)
                  "session_path"
                  (match sessionPath with | some p => .str p | none => .null))
              | other => other
            else result
          (.ok (contentEnvelope requestId result'), Eff.app eff1 eff2)
        | .error exc =>
          (.ok (contentEnvelope requestId (errDict exc.msg)), Eff.app eff1 eff2)
    | _, _ =>
      (.error (.attributeError "object has no attribute get"), Eff.none)

/-- One `main`-loop dispatch of a parsed request value: the `health`,
`tools/list`, `tools/call` and unknown-method arms.  `req.get` on a JSON
value that is not an object raises `AttributeError` (uncaught in `main`),
and so does `params.get` when `params` is not an object. -/
def dispatch (cfg : SrvCfg) (spawn : List String → RSpawn) (req : JVal) :
    Except PyExc JVal × Eff :=
  match req with
  | .obj kvs =>
    let method := (kvs.lookup "method").getD .null
    let requestId := (kvs.lookup "id").getD .null
    if method == .str "health" then
      (.ok (.obj [("jsonrpc", .str "2.0"), ("id", requestId),
        ("result", .obj [("status", .str "healthy"),
                         ("server", .str "meta-analysis-mcp"),
                         ("version", .str "1.0.0"),
                         ("timestamp", .str cfg.now)])]), Eff.none)
    else if method == .str "tools/list" then
      (.ok (list_tools_resp requestId), Eff.none)
    else if method == .str "tools/call" then
      let params := (kvs.lookup "params").getD (.obj [])
      match params with
      | .obj pkvs =>
        let name := (pkvs.lookup "name").getD .null
        let argumentsRaw := (pkvs.lookup "arguments").getD .null
        let arguments := if argumentsRaw.truthy then argumentsRaw else .obj []
        call_tool_resp cfg spawn requestId name arguments
      | _ => (.error (.attributeError "object has no attribute get"), Eff.none)
    else
      (.ok (rpcError requestId (-32601) "Method not found"), Eff.none)
  | _ => (.error (.attributeError "object has no attribute get"), Eff.none)

/-- What the `main` loop does with one input line, after `json.loads`:
`none` models a line that failed to parse (skipped by the bare `except`);
a `crashed` outcome is an exception escaping the loop body, which
terminates the process. -/
inductive LineOutcome where
  | skipped
  | responded (resp : JVal) (eff : Eff)
  | crashed (exc : PyExc) (eff : Eff)
deriving Repr, BEq

/-- One iteration of `main` on a (pre-parsed) input line. -/
def main_step (cfg : SrvCfg) (spawn : List String → RSpawn)
    (parsedLine : Option JVal) : LineOutcome :=
  match parsedLine with
  | none => .skipped
  | some req =>
    match dispatch cfg spawn req with
    | (.ok resp, eff) => .responded resp eff
    | (.error exc, eff) => .crashed exc eff

end Server

/-! ### Helper lemmas -/

namespace Py

theorem replaceChL_nil_eq_filter (a : Char) :
    ∀ s : List Char, replaceChL a [] s = s.filter (fun c => c != a)
  | [] => rfl
  | c :: rest => by
    by_cases h : c = a <;>
      simp [replaceChL, h, replaceChL_nil_eq_filter a rest, bne]

theorem replaceChL_id_of_not_mem (a : Char) (r : List Char) :
    ∀ s : List Char, a ∉ s → replaceChL a r s = s
  | [], _ => rfl
  | c :: rest, h => by
    have hca : c ≠ a := fun hc => h (hc ▸ List.mem_cons_self c rest)
    simp only [replaceChL, if_neg hca]
    rw [replaceChL_id_of_not_mem a r rest (fun hm => h (List.mem_cons_of_mem c hm))]

theorem dropWhile_dropWhile (p : Char → Bool) :
    ∀ l : List Char, (l.dropWhile p).dropWhile p = l.dropWhile p
  | [] => rfl
  | c :: rest => by
    by_cases h : p c
    · simp [List.dropWhile_cons, h, dropWhile_dropWhile p rest]
    · simp [List.dropWhile_cons, h]

theorem trimLeftL_trimLeftL (s : List Char) :
    trimLeftL (trimLeftL s) = trimLeftL s :=
  dropWhile_dropWhile isPySpace s

theorem trimRightL_trimRightL (s : List Char) :
    trimRightL (trimRightL s) = trimRightL s := by
  simp [trimRightL, dropWhile_dropWhile]

theorem trimRightL_isPrefixOfSelf (s : List Char) : trimRightL s <+: s := by
  have h := List.dropWhile_suffix (l := s.reverse) isPySpace
  have h2 : (s.reverse.dropWhile isPySpace).reverse <+: s.reverse.reverse :=
    List.reverse_prefix.mpr h
  simpa [trimRightL] using h2

theorem dropWhile_cons_self (p : Char → Bool) (c : Char) (l : List Char)
    (h : p c = false) : (c :: l).dropWhile p = c :: l := by
  simp [List.dropWhile_cons, h]

theorem trimLeftL_trimRightL (s : List Char) (h : trimLeftL s = s) :
    trimLeftL (trimRightL s) = trimRightL s := by
  rcases htr : trimRightL s with _ | ⟨c, t⟩
  · rfl
  · have hpre : (c :: t) <+: s := htr ▸ trimRightL_isPrefixOfSelf s
    rcases hpre with ⟨r, hr⟩
    have hc : isPySpace c = false := by
      rw [← hr] at h
      rw [List.cons_append] at h
      by_contra hcc
      have hcc' : isPySpace c = true := by simpa using hcc
      have hlen : (trimLeftL (c :: (t ++ r))).length ≤ (t ++ r).length := by
        show (List.dropWhile isPySpace (c :: (t ++ r))).length ≤ _
        rw [List.dropWhile_cons, if_pos hcc']
        exact (List.dropWhile_suffix _).sublist.length_le
      rw [h] at hlen
      simp at hlen
    exact dropWhile_cons_self isPySpace c t hc

theorem stripL_stripL (s : List Char) : stripL (stripL s) = stripL s := by
  have h1 : trimLeftL (trimLeftL s) = trimLeftL s := trimLeftL_trimLeftL s
  simp only [stripL]
  rw [trimLeftL_trimRightL (trimLeftL s) h1, trimRightL_trimRightL]

theorem mem_trimLeftL {x : Char} {s : List Char} (h : x ∈ trimLeftL s) : x ∈ s :=
  (List.dropWhile_suffix isPySpace).subset h

theorem mem_trimRightL {x : Char} {s : List Char} (h : x ∈ trimRightL s) : x ∈ s :=
  (trimRightL_isPrefixOfSelf s).subset h

theorem mem_stripL {x : Char} {s : List Char} (h : x ∈ stripL s) : x ∈ s :=
  mem_trimLeftL (mem_trimRightL h)

theorem mem_truncL {x : Char} {n : Nat} {s : List Char} (h : x ∈ truncL n s) :
    x ∈ s := by
  unfold truncL at h
  split at h
  · exact List.mem_of_mem_take h
  · exact h

theorem length_truncL_le (n : Nat) (s : List Char) : (truncL n s).length ≤ n ∨
    truncL n s = s := by
  unfold truncL
  split
  · left; simpa using Nat.min_le_left n s.length
  · right; rfl

theorem truncL_eq_of_le {n : Nat} {s : List Char} (h : s.length ≤ n) :
    truncL n s = s := by
  unfold truncL
  rw [if_neg (by omega)]

theorem length_truncL_le' (n : Nat) (s : List Char) (h : s.length ≤ n) :
    (truncL n s).length ≤ n := by
  rcases length_truncL_le n s with h1 | h1
  · exact h1
  · rw [h1]; exact h

theorem string_data_mk (l : List Char) : (String.mk l).data = l := rfl

theorem length_stripL_le (s : List Char) : (stripL s).length ≤ s.length := by
  have h1 : (trimLeftL s).length ≤ s.length :=
    (List.dropWhile_suffix isPySpace).sublist.length_le
  have h2 : (trimRightL (trimLeftL s)).length ≤ (trimLeftL s).length := by
    have := (trimRightL_isPrefixOfSelf (trimLeftL s)).length_le
    exact this
  exact le_trans h2 h1

end Py

namespace Validators

theorem removeAllL_eq_filter :
    ∀ (ds : List Char) (s : List Char),
      removeAllL ds s = s.filter (fun c => !(ds.contains c))
  | [], s => by simp [removeAllL]
  | d :: ds, s => by
    have step : removeAllL (d :: ds) s = removeAllL ds (Py.replaceChL d [] s) := rfl
    rw [step, removeAllL_eq_filter ds (Py.replaceChL d [] s),
        Py.replaceChL_nil_eq_filter, List.filter_filter]
    apply List.filter_congr
    intro x _
    simp only [List.contains, List.elem_cons, bne]
    cases hx : x == d <;> simp [hx]

theorem not_contains_of_mem_removeAllL {ds : List Char} {s : List Char} {x : Char}
    (h : x ∈ removeAllL ds s) : ds.contains x = false := by
  rw [removeAllL_eq_filter] at h
  have := (List.mem_filter.mp h).2
  simpa using this

theorem removeAllL_id {ds : List Char} {t : List Char}
    (h : ∀ x ∈ t, ds.contains x = false) : removeAllL ds t = t := by
  rw [removeAllL_eq_filter]
  exact List.filter_eq_self.mpr (fun a ha => by rw [h a ha]; rfl)

theorem length_truncL_le_n (n : Nat) (s : List Char) :
    (Py.truncL n s).length ≤ n := by
  unfold Py.truncL
  split
  · simpa using Nat.min_le_left n s.length
  · omega

theorem sanitizeForRL_unfold (l : List Char) : sanitizeForRL l =
    Py.stripL (Py.truncL 1000 (removeAllL rDangerousChars l)) := rfl

theorem sanitize_for_r_data (s : String) :
    (sanitize_for_r s).data = sanitizeForRL s.data := Py.string_data_mk _

theorem string_mk_data (s : String) : (⟨s.data⟩ : String) = s := rfl

theorem mem_sanitizeForRL {l : List Char} {x : Char}
    (h : x ∈ sanitizeForRL l) : rDangerousChars.contains x = false := by
  rw [sanitizeForRL_unfold] at h
  have h1 : x ∈ Py.truncL 1000 (removeAllL rDangerousChars l) :=
    Py.mem_stripL h
  exact not_contains_of_mem_removeAllL (Py.mem_truncL h1)

theorem length_sanitizeForRL_le (l : List Char) :
    (sanitizeForRL l).length ≤ 1000 := by
  rw [sanitizeForRL_unfold]
  exact le_trans (Py.length_stripL_le _)
    (length_truncL_le_n 1000 (removeAllL rDangerousChars l))

theorem sanitizeForRL_idem (l : List Char) :
    sanitizeForRL (sanitizeForRL l) = sanitizeForRL l := by
  have h1 : removeAllL rDangerousChars (sanitizeForRL l) = sanitizeForRL l :=
    removeAllL_id (fun x hx => mem_sanitizeForRL hx)
  rw [sanitizeForRL_unfold (sanitizeForRL l), h1,
      Py.truncL_eq_of_le (length_sanitizeForRL_le l), sanitizeForRL_unfold l,
      Py.stripL_stripL, ← sanitizeForRL_unfold l]

theorem sanitize_for_r_idem (s : String) :
    sanitize_for_r (sanitize_for_r s) = sanitize_for_r s := by
  have h : sanitizeForRL (sanitize_for_r s).data = (sanitize_for_r s).data := by
    rw [sanitize_for_r_data]
    exact sanitizeForRL_idem s.data
  show (⟨sanitizeForRL (sanitize_for_r s).data⟩ : String) = sanitize_for_r s
  rw [h, string_mk_data]

end Validators

namespace RSan

theorem sqCh_not_mem_sanitize (s : String) :
    Py.sqCh ∉ (Validators.sanitize_for_r s).data := by
  rw [Validators.sanitize_for_r_data]
  intro h
  have := Validators.mem_sanitizeForRL h
  simp [Validators.rDangerousChars, List.contains, List.elem_cons, Py.sqCh,
        Py.btCh, Py.dqCh] at this

theorem dqCh_not_mem_sanitize (s : String) :
    Py.dqCh ∉ (Validators.sanitize_for_r s).data := by
  rw [Validators.sanitize_for_r_data]
  intro h
  have := Validators.mem_sanitizeForRL h
  simp [Validators.rDangerousChars, List.contains, List.elem_cons, Py.sqCh,
        Py.btCh, Py.dqCh] at this

theorem sanitize_string_found (value : String) (f : String) (h : ¬ value = "")
    (hf : DANGEROUS_R_FUNCTIONS.find?
      (fun g => Py.containsSub (Py.pyLower (Validators.sanitize_for_r value)) g) =
      some f) :
    sanitize_string value =
      .error ⟨"Dangerous R function " ++ Py.sq ++ f ++ Py.sq ++
              " detected in input"⟩ := by
  unfold sanitize_string
  rw [if_neg h]
  simp only []
  rw [hf]

theorem sanitize_string_patternHit (value : String) (h : ¬ value = "")
    (hf : DANGEROUS_R_FUNCTIONS.find?
      (fun g => Py.containsSub (Py.pyLower (Validators.sanitize_for_r value)) g) =
      none)
    (hp : hasRCodePattern (Validators.sanitize_for_r value) = true) :
    sanitize_string value =
      .error ⟨"Potential R code injection pattern detected"⟩ := by
  unfold sanitize_string
  rw [if_neg h]
  simp only []
  rw [hf]
  show (if hasRCodePattern (Validators.sanitize_for_r value) then _ else _) = _
  rw [if_pos hp]

theorem sanitize_string_clean (value : String) (h : ¬ value = "")
    (hf : DANGEROUS_R_FUNCTIONS.find?
      (fun g => Py.containsSub (Py.pyLower (Validators.sanitize_for_r value)) g) =
      none)
    (hp : hasRCodePattern (Validators.sanitize_for_r value) = false) :
    sanitize_string value =
      .ok (Py.pyReplaceCh
            (Py.pyReplaceCh (Validators.sanitize_for_r value) Py.dqCh
              ("\\" ++ Py.dq))
            Py.sqCh ("\\" ++ Py.sq)) := by
  unfold sanitize_string
  rw [if_neg h]
  simp only []
  rw [hf]
  show (if hasRCodePattern (Validators.sanitize_for_r value) then _ else _) = _
  rw [if_neg (by simp [hp])]

theorem escape_id (u : String) (hd : Py.dqCh ∉ u.data) (hs : Py.sqCh ∉ u.data) :
    Py.pyReplaceCh (Py.pyReplaceCh u Py.dqCh ("\\" ++ Py.dq))
      Py.sqCh ("\\" ++ Py.sq) = u := by
  unfold Py.pyReplaceCh
  rw [Py.replaceChL_id_of_not_mem _ _ _ hd]
  show Py.pyReplaceCh u Py.sqCh ("\\" ++ Py.sq) = u
  unfold Py.pyReplaceCh
  rw [Py.replaceChL_id_of_not_mem _ _ _ hs]

end RSan
/-- Claim C7: for every string `s` on which `sanitize_string` does not raise,
sanitizing is idempotent:
`sanitize_string (sanitize_string s) = sanitize_string s`. -/
theorem C7_sanitize_string_idempotent (s t : String)
    (h : RSan.sanitize_string s = .ok t) :
    RSan.sanitize_string t = .ok t := by
  by_cases hs : s = ""
  · subst hs
    have ht : t = "" := by
      have h0 : RSan.sanitize_string "" = .ok "" := rfl
      rw [h0] at h
      injection h.symm
    rw [ht]
    rfl
  · cases hfind : RSan.DANGEROUS_R_FUNCTIONS.find?
        (fun g => Py.containsSub (Py.pyLower (Validators.sanitize_for_r s)) g) with
    | some f =>
      rw [RSan.sanitize_string_found s f hs hfind] at h
      exact Except.noConfusion h
    | none =>
      cases hpat : RSan.hasRCodePattern (Validators.sanitize_for_r s) with
      | true =>
        rw [RSan.sanitize_string_patternHit s hs hfind hpat] at h
        exact Except.noConfusion h
      | false =>
        rw [RSan.sanitize_string_clean s hs hfind hpat] at h
        have hesc : Py.pyReplaceCh
            (Py.pyReplaceCh (Validators.sanitize_for_r s) Py.dqCh ("\\" ++ Py.dq))
            Py.sqCh ("\\" ++ Py.sq) = Validators.sanitize_for_r s :=
          RSan.escape_id _ (RSan.dqCh_not_mem_sanitize s) (RSan.sqCh_not_mem_sanitize s)
        rw [hesc] at h
        have ht : t = Validators.sanitize_for_r s := by
          injection h.symm
        subst ht
        by_cases hts : Validators.sanitize_for_r s = ""
        · rw [hts]
          rfl
        · have hidem := Validators.sanitize_for_r_idem s
          rw [RSan.sanitize_string_clean (Validators.sanitize_for_r s) hts
              (by rw [hidem]; exact hfind) (by rw [hidem]; exact hpat)]
          rw [hidem, hesc]

/-- Witness for C7 at a concrete input: sanitizing `" hi "` yields `"hi"`,
and sanitizing that output returns it unchanged. -/
theorem C7_sanitize_string_idempotent_witness :
    RSan.sanitize_string "hi" = .ok "hi" :=
  C7_sanitize_string_idempotent " hi " "hi" (by rfl)

/-- Claim C9 (code bug in the source): `validate_enum` lowercases the value but
compares it against the stored vocabulary as-is, so for the uppercase
`effect_measure` vocabulary both `"OR"` and `"or"` are rejected even
though `"OR"` is a (case-insensitive) member of the vocabulary; the
intended case-insensitive acceptance never happens for this enum. -/
theorem C9_effect_measure_enum_rejected :
    Validators.validate_enum (.str "OR") "effect_measure" =
      .error ⟨"Value " ++ Py.sq ++ "or" ++ Py.sq ++ " not in allowed values"⟩ ∧
    Validators.validate_enum (.str "or") "effect_measure" =
      .error ⟨"Value " ++ Py.sq ++ "or" ++ Py.sq ++ " not in allowed values"⟩ ∧
    Py.pyLower "OR" = "or" ∧
    "OR" ∈ (Validators.ALLOWED_VALUES.lookup "effect_measure").getD [] ∧
    Validators.validate_enum (.str "csv") "data_format" = .ok "csv" :=
  ⟨rfl, rfl, rfl, by decide, rfl⟩

/-- Claim C5 (code bug in the source): the dispatcher loop is not crash-proof.
A line that parses to a JSON array (`[1, 2]`) makes `req.get` raise
`AttributeError`, and a `tools/call` whose `session_id` is a number makes
`os.path.join` raise `TypeError`; both escape `main`'s loop body (which
only guards `json.loads`) and terminate the process, while the same loop
does convert exceptions raised inside `execute_r` and skips unparseable
lines. -/
theorem C5_dispatcher_crashes_on_hostile_input :
    Server.main_step
      ⟨some "/srv/sessions", "/srv/app", "Rscript",
       "/app/scripts/entry/mcp_tools.R", false, "0123abcd", "100.0"⟩
      (fun _ => Server.RSpawn.exited 0 "" "" none)
      (some (.arr [.int 1, .int 2])) =
      .crashed (.attributeError "object has no attribute get") ⟨[], []⟩ ∧
    Server.main_step
      ⟨some "/srv/sessions", "/srv/app", "Rscript",
       "/app/scripts/entry/mcp_tools.R", false, "0123abcd", "100.0"⟩
      (fun _ => Server.RSpawn.exited 0 "" "" none)
      (some (.obj [("method", .str "tools/call"), ("id", .int 7),
        ("params", .obj [("name", .str "health_check"),
          ("arguments", .obj [("session_id", .int 5)])])])) =
      .crashed
        (.typeError "join() argument must be str, bytes, or os.PathLike object")
        ⟨["/srv/sessions"], []⟩ ∧
    Server.main_step
      ⟨some "/srv/sessions", "/srv/app", "Rscript",
       "/app/scripts/entry/mcp_tools.R", false, "0123abcd", "100.0"⟩
      (fun _ => Server.RSpawn.exited 0 "" "" none) none = .skipped :=
  ⟨rfl, rfl, rfl⟩

/-- Claim C2 (code bug in the source): a client-supplied `session_id` of `".."`
makes the resolved `session_path` be `<root>/..`, which normalizes to the
parent of the sessions root — not a strict descendant — and
`os.makedirs` is invoked on it before any validation;  `execute_r`'s
later checks merely turn the call into an error result, so no subprocess
is spawned with that path. -/
theorem C2_session_path_escapes_root :
    (Server.dispatch
      ⟨some "/srv/sessions", "/srv/app", "Rscript",
       "/app/scripts/entry/mcp_tools.R", false, "0123abcd", "100.0"⟩
      (fun _ => Server.RSpawn.exited 0 "" "" none)
      (.obj [("method", .str "tools/call"), ("id", .int 7),
        ("params", .obj [("name", .str "get_session_status"),
          ("arguments", .obj [("session_id", .str "..")])])])).2 =
      ⟨["/srv/sessions", "/srv/sessions/.."], []⟩ ∧
    Py.pyNormpath "/srv/sessions/.." = "/srv" ∧
    Py.isStrictDescendant (Py.pyNormpath "/srv/sessions/..") "/srv/sessions" =
      false ∧
    Py.isStrictDescendant "/srv/sessions/.." "/srv/sessions" = true :=
  ⟨rfl, rfl, rfl, rfl⟩

/-- Claim C3 counterexample: the argument `"a..b"` contains the substring `".."`
but `SecureSubprocess.run` does not raise — the command is handed to the
OS spawn primitive (the dangerous-pattern list only holds `"../"` and
`"..\\"`). -/
theorem C3_counterexample_bare_dotdot_spawns :
    Py.containsSub "a..b" ".." = true ∧
    (SecSub.run SecSub.defaultSubCfg ⟨fun _ => false, fun _ => false⟩
        (fun _ => .completed 0 "" "") ["Rscript", "a..b"] true true).1 =
      .ok ⟨0, "", ""⟩ ∧
    (SecSub.run SecSub.defaultSubCfg ⟨fun _ => false, fun _ => false⟩
        (fun _ => .completed 0 "" "") ["Rscript", "a..b"] true true).2 =
      [["Rscript", "a..b"]] ∧
    (SecSub.popen SecSub.defaultSubCfg ⟨fun _ => false, fun _ => false⟩
        ["Rscript", "a..b"]).2 = [["Rscript", "a..b"]] :=
  ⟨rfl, rfl, rfl, rfl⟩

/-- Claim C6 counterexample: in `"a\n =1"` the second row's first non-whitespace
character is `'='`, yet `validate_csv_content` accepts the content — the
code inspects `line[0]`, which is the space. -/
theorem C6_counterexample_whitespace_row_accepted :
    Validators.validate_csv_content (.str "a\n =1") 10000 = .ok "a\n =1" ∧
    (Py.pyStrip " =1").data.head? = some '=' ∧
    Py.pySplitNl (Py.pyStrip "a\n =1") = ["a", " =1"] :=
  ⟨rfl, rfl, rfl⟩

/-- Claim C1: for every `tools/call` whose `params.name` is not a whitelisted
tool-name string, the dispatcher replies with JSON-RPC error `-32601` and
spawns no subprocess. -/
theorem C1_unknown_tool_rejected_without_spawn (cfg : Server.SrvCfg)
    (spawn : List String → Server.RSpawn) (requestId name arguments : JVal)
    (h : ∀ s : String, name = .str s → s ∉ Server.ALLOWED_TOOLS) :
    (Server.call_tool_resp cfg spawn requestId name arguments).1 =
      .ok (Server.rpcError requestId (-32601) ("Unknown tool: " ++ name.strOf)) ∧
    (Server.call_tool_resp cfg spawn requestId name arguments).2.spawns = [] := by
  have hname : Server.toolNameOk name = false := by
    cases name with
    | str s =>
      have hs := h s rfl
      simpa [Server.toolNameOk] using hs
    | null => rfl
    | bool b => rfl
    | int n => rfl
    | arr xs => rfl
    | obj kvs => rfl
  unfold Server.call_tool_resp
  rw [hname]
  exact ⟨rfl, rfl⟩

/-- Witness for C1: the hostile tool name `"drop_table; rm -rf /"` is not
whitelisted, gets the `-32601` error and triggers no spawn. -/
theorem C1_unknown_tool_rejected_without_spawn_witness :
    (Server.call_tool_resp
      ⟨some "/srv/sessions", "/srv/app", "Rscript",
       "/app/scripts/entry/mcp_tools.R", false, "0123abcd", "100.0"⟩
      (fun _ => Server.RSpawn.exited 0 "" "" none)
      (.int 7) (.str "drop_table; rm -rf /") (.obj [])).1 =
      .ok (Server.rpcError (.int 7) (-32601)
        ("Unknown tool: " ++ (JVal.str "drop_table; rm -rf /").strOf)) ∧
    (Server.call_tool_resp
      ⟨some "/srv/sessions", "/srv/app", "Rscript",
       "/app/scripts/entry/mcp_tools.R", false, "0123abcd", "100.0"⟩
      (fun _ => Server.RSpawn.exited 0 "" "" none)
      (.int 7) (.str "drop_table; rm -rf /") (.obj [])).2.spawns = [] :=
  C1_unknown_tool_rejected_without_spawn _ _ _ _ _
    (fun s hs => by cases hs; decide)

/-- Claim C10: `validate_string` coerces any non-`None` value through `str()`
and strips it before checking constraints, so a non-string value whose
rendering satisfies the constraints is returned as that rendering rather
than rejected for its type; `validate_session_id` is exactly
`validate_string` with the session-id parameters. -/
theorem C10_validate_string_coerces (v : JVal) (minL : Nat) (maxL : Option Nat)
    (pat : Option Validators.Pattern) (ac : Option (List Char))
    (hnull : (v == JVal.null) = false)
    (hmin : ¬ (Py.pyStrip v.strOf).length < minL)
    (hmax : (match maxL with
             | some m => decide (m ≠ 0) && decide ((Py.pyStrip v.strOf).length > m)
             | none => false) = false)
    (hpat : (match pat with
             | some p => !Validators.patternMatch p (Py.pyStrip v.strOf)
             | none => false) = false)
    (hac : (match ac with
            | some cs => !(Py.pyStrip v.strOf).data.all (fun c => cs.contains c)
            | none => false) = false) :
    Validators.validate_string v minL maxL pat ac = .ok (Py.pyStrip v.strOf) ∧
    Validators.validate_session_id =
      (fun w => Validators.validate_string w 8 (some 64) (some .sessionId) none) := by
  constructor
  · unfold Validators.validate_string
    rw [hnull]
    simp only [Bool.false_eq_true, if_false]
    rw [if_neg hmin, if_neg (by rw [hmax]; exact Bool.false_ne_true),
        if_neg (by rw [hpat]; exact Bool.false_ne_true),
        if_neg (by rw [hac]; exact Bool.false_ne_true)]
  · rfl

/-- Witness for C10: the integer `12345678` renders to `"12345678"`, which
passes the session-id constraints, so `validate_string` (with the
session-id parameters, i.e. `validate_session_id`) returns it. -/
theorem C10_validate_string_coerces_witness :
    Validators.validate_string (.int 12345678) 8 (some 64)
      (some .sessionId) none = .ok "12345678" :=
  ((C10_validate_string_coerces (.int 12345678) 8 (some 64) (some .sessionId)
      none rfl (by decide) rfl rfl rfl).1).trans rfl

theorem Py.pyStrip_pyStrip (s : String) :
    Py.pyStrip (Py.pyStrip s) = Py.pyStrip s := by
  show (⟨Py.stripL (Py.pyStrip s).data⟩ : String) = _
  rw [show (Py.pyStrip s).data = Py.stripL s.data from Py.string_data_mk _,
      Py.stripL_stripL]
  rfl

theorem Validators.validate_string_ok_val {v : JVal} {minL : Nat}
    {maxL : Option Nat} {pat : Option Validators.Pattern}
    {ac : Option (List Char)} {r : String}
    (h : Validators.validate_string v minL maxL pat ac = .ok r) :
    r = Py.pyStrip v.strOf := by
  unfold Validators.validate_string at h
  simp only [] at h
  split_ifs at h
  all_goals
    first
      | exact Except.noConfusion h
      | exact (Except.ok.inj h).symm

theorem Validators.mem_contains {c : Char} {l : List Char} (h : c ∈ l) :
    l.contains c = true := by
  induction l with
  | nil => cases h
  | cons a t ih =>
    rcases List.mem_cons.mp h with rfl | ht
    · simp [List.contains, List.elem_cons]
    · simp only [List.contains, List.elem_cons]
      cases hca : c == a
      · simpa [List.contains] using ih ht
      · rfl

/-- Claim C6 (amended): `validate_csv_content` raises whenever some row of the
stripped content has a dangerous FIRST character (the code inspects
`line[0]`, not the first non-whitespace character). -/
theorem C6_dangerous_first_char_raises (s : String) (maxRows : Nat)
    (h : ∃ line ∈ Py.pySplitNl (Py.pyStrip s), ∃ c,
      line.data.head? = some c ∧ c ∈ Validators.csvDangerousFirst) :
    ∀ t, Validators.validate_csv_content (.str s) maxRows ≠ .ok t := by
  intro t hok
  unfold Validators.validate_csv_content at hok
  cases hvs : Validators.validate_string (.str s) 0 (some 10485760) none none with
  | error e =>
    rw [hvs] at hok
    exact Except.noConfusion hok
  | ok str =>
    rw [hvs] at hok
    have hstr : str = Py.pyStrip s := Validators.validate_string_ok_val hvs
    subst hstr
    simp only [] at hok
    rw [Py.pyStrip_pyStrip] at hok
    split at hok
    · exact Except.noConfusion hok
    · split at hok
      · exact Except.noConfusion hok
      · rename_i hrows hany
        apply hany
        obtain ⟨line, hline, c, hc, hcd⟩ := h
        refine List.any_eq_true.mpr ⟨c, List.mem_filterMap.mpr ⟨line, hline, hc⟩, ?_⟩
        exact Validators.mem_contains hcd

/-- Witness for C6 (amended): `"=1\nb"` has a first row starting with `=`
and is rejected. -/
theorem C6_dangerous_first_char_raises_witness :
    Validators.validate_csv_content (.str "=1\nb") 10000 ≠ .ok "=1\nb" :=
  C6_dangerous_first_char_raises "=1\nb" 10000
    ⟨"=1", by decide, '=', rfl, by decide⟩ "=1\nb"

/-- Claim C8 counterexample: an existing `.R` file OUTSIDE every allow-listed
scripts directory is accepted by `create_safe_r_command` — the
allowlisted-directory check only logs a warning — so the claim that such
paths raise `RSanitizerError` is false. -/
theorem C8_counterexample_outside_allowlist_accepted :
    RSan.create_safe_r_command
      ⟨fun p => p = "/opt/other/evil.R", fun p => p = "/opt/other/evil.R"⟩
      ⟨"/app", "/work"⟩ (fun n => "/tmp/args" ++ toString n ++ ".json") 0
      "/opt/other/evil.R" [] =
      .ok ["Rscript", "--vanilla", "/opt/other/evil.R", "/tmp/args0.json"] ∧
    Py.pyStartsWith "/opt/other/evil.R" ("/app" ++ "/scripts") = false ∧
    Py.pyStartsWith "/opt/other/evil.R" ("/work" ++ "/scripts") = false :=
  ⟨rfl, rfl, rfl⟩

/-- Claim C8 (amended): `create_safe_r_command` raises (via
`validate_r_script_path`) exactly for the checks the code enforces: a path
that does not exist, is not a regular file, or whose lowercased suffix is
not the R extension; scripts outside the allow-listed directories are only
warned about. -/
theorem C8_invalid_script_path_raises (fs : Fs) (cfg : RSan.RsCfg)
    (alloc : Nat → String) (counter : Nat) (scriptPath : String)
    (args : List (String × JVal))
    (h : fs.pathExists scriptPath = false ∨ fs.isFile scriptPath = false ∨
         ([".r", ".R"].contains (Py.pyLower (Py.pathSuffix scriptPath))) = false) :
    ∀ cmd, RSan.create_safe_r_command fs cfg alloc counter scriptPath args ≠
      .ok cmd := by
  intro cmd hok
  have hval : ∀ p, RSan.validate_r_script_path fs cfg scriptPath ≠ .ok p := by
    intro p hvp
    unfold RSan.validate_r_script_path at hvp
    rcases h with h1 | h1 | h1 <;> rw [h1] at hvp <;>
      split_ifs at hvp <;> first | exact Except.noConfusion hvp | simp_all
  unfold RSan.create_safe_r_command at hok
  cases hv : RSan.validate_r_script_path fs cfg scriptPath with
  | error e =>
    rw [hv] at hok
    exact Except.noConfusion hok
  | ok p => exact hval p hv

/-- Witness for C8 (amended): a nonexistent path is rejected. -/
theorem C8_invalid_script_path_raises_witness :
    RSan.create_safe_r_command ⟨fun _ => false, fun _ => false⟩
      ⟨"/app", "/work"⟩ (fun n => "/tmp/args" ++ toString n ++ ".json") 0
      "/nope.R" [] ≠ .ok ["Rscript", "--vanilla", "/nope.R", "/tmp/args0.json"] :=
  C8_invalid_script_path_raises ⟨fun _ => false, fun _ => false⟩
    ⟨"/app", "/work"⟩ (fun n => "/tmp/args" ++ toString n ++ ".json") 0
    "/nope.R" [] (.inl rfl) _

namespace SecSub

theorem find?_ne_none {p : String → Bool} {l : List String} {x : String}
    (hx : x ∈ l) (hpx : p x = true) : l.find? p ≠ none := by
  induction l with
  | nil => cases hx
  | cons y ys ih =>
    rcases List.mem_cons.mp hx with rfl | hys
    · rw [List.find?_cons, hpx]
      exact fun hcon => Option.noConfusion hcon
    · rw [List.find?_cons]
      cases hpy : p y
      · exact ih hys
      · exact fun hcon => Option.noConfusion hcon

theorem firstDangerous_ne_none {cmd : List String} {a p : String}
    (ha : a ∈ cmd) (hp : p ∈ DANGEROUS_PATTERNS)
    (hc : Py.containsSub a p = true) : firstDangerous cmd ≠ none := by
  induction cmd with
  | nil => cases ha
  | cons c0 rest ih =>
    show List.findSome? _ (c0 :: rest) ≠ none
    rw [List.findSome?_cons]
    rcases List.mem_cons.mp ha with rfl | hrest
    · have hfind : DANGEROUS_PATTERNS.find? (fun q => Py.containsSub a q) ≠ none :=
        find?_ne_none hp hc
      cases hfd : DANGEROUS_PATTERNS.find? (fun q => Py.containsSub a q) with
      | none => exact absurd hfd hfind
      | some q => exact fun hcon => Option.noConfusion hcon
      
    · cases hfd : DANGEROUS_PATTERNS.find? (fun q => Py.containsSub c0 q) with
      | none => exact ih hrest
      | some q => exact fun hcon => Option.noConfusion hcon

theorem validate_command_secure_error (cfg : SubCfg) (fs : Fs)
    {cmd : List String} {a p : String} (ha : a ∈ cmd)
    (hp : p ∈ DANGEROUS_PATTERNS) (hc : Py.containsSub a p = true) :
    ∃ e, validate_command cfg fs cmd = .error e ∧ e.isSecure = true := by
  cases cmd with
  | nil => cases ha
  | cons c0 rest =>
    cases hlook : cfg.allowedCommands.lookup (Py.pyBasename c0) with
    | none =>
      refine ⟨.secure ("Command " ++ Py.sq ++ Py.pyBasename c0 ++ Py.sq ++
        " not in whitelist"), ?_, rfl⟩
      unfold validate_command
      simp only []
      rw [hlook]
    | some prefixes =>
      have hfd := firstDangerous_ne_none ha hp hc
      cases hq : firstDangerous (c0 :: rest) with
      | none => exact absurd hq hfd
      | some q =>
        refine ⟨.secure ("Dangerous pattern " ++ Py.sq ++ q ++ Py.sq ++
          " detected in arguments"), ?_, rfl⟩
        unfold validate_command
        simp only []
        rw [hlook]
        simp only []
        rw [hq]

end SecSub

/-- Claim C3 (amended): `SecureSubprocess.run` and `.popen` raise
`SecureSubprocessError` before the OS spawn primitive for every command
whose argument list contains one of `;`, `&&`, `||`, a backtick, `$(`,
or a traversal of the form `../` or `..\` — the forms present in
`DANGEROUS_PATTERNS`.  A bare `..` not followed by a slash or backslash
is not rejected (see the counterexample theorem). -/
theorem C3_dangerous_token_raises_before_spawn (cfg : SecSub.SubCfg) (fs : Fs)
    (oracle : List String → SecSub.SpawnOutcome) (cmd : List String)
    (cap chk : Bool)
    (h : ∃ a ∈ cmd, ∃ p ∈ ([";", "&&", "||", Py.bt, "$(", "../", "..\\"] :
      List String), Py.containsSub a p = true) :
    (∃ e, (SecSub.run cfg fs oracle cmd cap chk).1 = .error e ∧
      e.isSecure = true) ∧
    (SecSub.run cfg fs oracle cmd cap chk).2 = [] ∧
    (∃ e, (SecSub.popen cfg fs cmd).1 = .error e ∧ e.isSecure = true) ∧
    (SecSub.popen cfg fs cmd).2 = [] := by
  obtain ⟨a, ha, p, hp7, hc⟩ := h
  have hpDP : p ∈ SecSub.DANGEROUS_PATTERNS := by
    simp only [List.mem_cons, List.not_mem_nil, or_false] at hp7
    rcases hp7 with rfl | rfl | rfl | rfl | rfl | rfl | rfl <;> decide
  obtain ⟨e, he, hsec⟩ :=
    SecSub.validate_command_secure_error cfg fs ha hpDP hc
  refine ⟨⟨e, ?_, hsec⟩, ?_, ⟨e, ?_, hsec⟩, ?_⟩
  · unfold SecSub.run
    rw [he]
  · unfold SecSub.run
    rw [he]
  · unfold SecSub.popen
    rw [he]
  · unfold SecSub.popen
    rw [he]

/-- Witness for C3 (amended): `["Rscript", "a;b"]` contains `;` and is
rejected before any spawn. -/
theorem C3_dangerous_token_raises_before_spawn_witness :
    (SecSub.run SecSub.defaultSubCfg ⟨fun _ => false, fun _ => false⟩
        (fun _ => .completed 0 "" "") ["Rscript", "a;b"] true true).2 = [] :=
  (C3_dangerous_token_raises_before_spawn SecSub.defaultSubCfg
    ⟨fun _ => false, fun _ => false⟩ (fun _ => .completed 0 "" "")
    ["Rscript", "a;b"] true true
    ⟨"a;b", by decide, ";", by decide, by decide⟩).2.1

/-- Claim C4 counterexample: an uploaded `img.png` whose sniffed content type is
`application/pdf` (not allowed for `.png`, which is outside the textual
exception list) makes `validate_and_store_file` raise at step 4: no
record with status `quarantined` is produced, and the sandbox copy is
deleted by the `finally` block rather than moved to quarantine. -/
theorem C4_counterexample_mismatch_raises_without_quarantine :
    (FileSec.validate_and_store_file
      ⟨"/up", "/quar", "/sand", 52428800, FileSec.ALLOWED_EXTENSIONS,
       some (fun _ => "application/pdf"), fun _ => none, fun _ => "H",
       "1700", "iso", "20240101_000000", "42"⟩
      (fun _ => false) ⟨"\x89PNGdata"⟩ "img.png" none).1 =
      .error ⟨"File content (application/pdf) doesn" ++ Py.sq ++
              "t match extension .png"⟩ ∧
    (FileSec.validate_and_store_file
      ⟨"/up", "/quar", "/sand", 52428800, FileSec.ALLOWED_EXTENSIONS,
       some (fun _ => "application/pdf"), fun _ => none, fun _ => "H",
       "1700", "iso", "20240101_000000", "42"⟩
      (fun _ => false) ⟨"\x89PNGdata"⟩ "img.png" none).2 =
      FileSec.Disposition.sandboxDeleted ∧
    FileSec.ALLOWED_EXTENSIONS.lookup ".png" = some ["image/png"] ∧
    FileSec.mismatchExceptionExts.contains ".png" = false :=
  ⟨rfl, rfl, rfl, rfl⟩

namespace FileSec

theorem validate_content_type_mismatch {cfg : FileCfg} {path content ext : String}
    {allowedTypes : List String}
    (hlk : cfg.allowedExtensions.lookup ext = some allowedTypes)
    (hmis : allowedTypes.contains (detect_content_type cfg path content) = false)
    (hexc : mismatchExceptionExts.contains ext = false) :
    validate_content_type cfg path content ext =
      .error ⟨"File content (" ++ detect_content_type cfg path content ++
              ") doesn" ++ Py.sq ++ "t match extension " ++ ext⟩ := by
  unfold validate_content_type
  rw [hlk]
  simp only []
  rw [hmis, hexc]
  simp

end FileSec

/-- Claim C4 (amended): when the sniffed content type of an uploaded file is not
among the MIME types allowed for its (validated) extension and the
extension is outside the textual exception list, `validate_and_store_file`
raises `FileSecurityError` at step 4: it returns no record at all (no
`quarantined` status), the sandbox copy of the file is deleted by the
`finally` block (not moved to quarantine), and the file is never placed
under the upload directory. -/
theorem C4_mismatch_raises_and_file_is_deleted (cfg : FileSec.FileCfg)
    (fsDest : String → Bool) (file : FileSec.UpFile)
    (originalFilename safeName : String) (sz : Nat)
    (sessionId : Option String) (allowedTypes : List String)
    (hfn : FileSec.validate_filename cfg originalFilename = .ok safeName)
    (hsz : FileSec.check_file_size cfg file.content.length = .ok sz)
    (hlk : cfg.allowedExtensions.lookup (Py.pyLower (Py.pathSuffix safeName)) =
      some allowedTypes)
    (hmis : allowedTypes.contains (FileSec.detect_content_type cfg
      (cfg.sandboxDir ++ "/" ++ cfg.nowStamp ++ "_" ++ cfg.pidStr ++ "/" ++
        safeName) file.content) = false)
    (hexc : FileSec.mismatchExceptionExts.contains
      (Py.pyLower (Py.pathSuffix safeName)) = false) :
    (FileSec.validate_and_store_file cfg fsDest file originalFilename
      sessionId).1 =
      .error ⟨"File content (" ++ FileSec.detect_content_type cfg
        (cfg.sandboxDir ++ "/" ++ cfg.nowStamp ++ "_" ++ cfg.pidStr ++ "/" ++
          safeName) file.content ++ ") doesn" ++ Py.sq ++
        "t match extension " ++ Py.pyLower (Py.pathSuffix safeName)⟩ ∧
    (FileSec.validate_and_store_file cfg fsDest file originalFilename
      sessionId).2 = FileSec.Disposition.sandboxDeleted := by
  have hct := FileSec.validate_content_type_mismatch hlk hmis hexc
  unfold FileSec.validate_and_store_file
  rw [hfn]
  simp only []
  rw [hsz]
  simp only []
  unfold FileSec.sandbox_process_file
  simp only []
  rw [hsz]
  simp only []
  rw [hct]
  exact ⟨rfl, rfl⟩

/-- Witness for C4 (amended) at the counterexample input. -/
theorem C4_mismatch_raises_and_file_is_deleted_witness :
    (FileSec.validate_and_store_file
      ⟨"/up", "/quar", "/sand", 52428800, FileSec.ALLOWED_EXTENSIONS,
       some (fun _ => "application/pdf"), fun _ => none, fun _ => "H",
       "1700", "iso", "20240101_000000", "42"⟩
      (fun _ => false) ⟨"\x89PNGdata"⟩ "img.png" none).2 =
      FileSec.Disposition.sandboxDeleted :=
  (C4_mismatch_raises_and_file_is_deleted
    ⟨"/up", "/quar", "/sand", 52428800, FileSec.ALLOWED_EXTENSIONS,
     some (fun _ => "application/pdf"), fun _ => none, fun _ => "H",
     "1700", "iso", "20240101_000000", "42"⟩
    (fun _ => false) ⟨"\x89PNGdata"⟩ "img.png" "img.png" 8 none ["image/png"]
    rfl rfl rfl rfl rfl).2
